import Mathlib

/-!
# Noise texture node of the SVM shader virtual machine

A shallow embedding of `intern/cycles/kernel/svm/svm_noisetex.h`.

* Floating-point numbers are an abstract type `F`; the arithmetic the node uses
  (`+`, `*`, `!=`, whole-number literals) is supplied by `Externals`, so every
  result below holds for any arithmetic, IEEE-754 included.
* The coherent-noise and hash primitives are fields of `Externals` as well.
* Code runs in the monad `SVM`: it threads the register stack, the instruction
  cursor, a log of noise-primitive calls and a log of register-stack accesses,
  and it can abort (a failed `kernel_assert`).
* Arguments of one call are evaluated left to right, which fixes the order of
  the entries in the call log.
-/

namespace NoiseTex

/-! ## Data model -/

/-- Two packed floats. -/
structure float2 (F : Type) where
  x : F
  y : F
deriving DecidableEq, Repr

/-- Three packed floats. -/
structure float3 (F : Type) where
  x : F
  y : F
  z : F
deriving DecidableEq, Repr

/-- Four packed floats. -/
structure float4 (F : Type) where
  x : F
  y : F
  z : F
  w : F
deriving DecidableEq, Repr

/-- Four packed unsigned words: one node of the instruction stream. -/
structure uint4 where
  x : Nat
  y : Nat
  z : Nat
  w : Nat
deriving DecidableEq, Repr

/-- Everything `svm_noisetex.h` uses without defining it: float arithmetic, the
hash and noise primitives, and the reserved stack offset. -/
structure Externals (F : Type) where
  /-- Float addition. -/
  add : F → F → F
  /-- Float multiplication. -/
  mul : F → F → F
  /-- Float comparison `a != b`. -/
  neq : F → F → Bool
  /-- The float literal `n.0f`. -/
  ofNat : Nat → F
  /-- Reinterpretation of a 32-bit word as a float, `__uint_as_float`. -/
  uint_as_float : Nat → F
  /-- Contents of a `float` local that was declared and never assigned. -/
  uninit_float : F
  /-- Contents of a `float3` local that was declared and never assigned. -/
  uninit_float3 : float3 F
  /-- The reserved offset `SVM_STACK_INVALID`: "no source, no consumer". -/
  SVM_STACK_INVALID : Nat
  hash_float_to_float : F → F
  hash_float2_to_float : float2 F → F
  noise_1d : F → F
  noise_2d : float2 F → F
  noise_3d : float3 F → F
  noise_4d : float4 F → F
  noise_turbulence_1d : F → F → F
  noise_turbulence_2d : float2 F → F → F
  noise_turbulence_3d : float3 F → F → F
  noise_turbulence_4d : float4 F → F → F

/-- The read-only kernel data the node reaches through `kg`: the instruction
stream `__svm_nodes`. -/
structure KernelGlobals where
  svm_nodes : Int → uint4

/-- One call of a coherent-noise primitive, with its arguments. -/
inductive NoiseCall (F : Type) where
  | noise_1d (p : F)
  | noise_2d (p : float2 F)
  | noise_3d (p : float3 F)
  | noise_4d (p : float4 F)
  | noise_turbulence_1d (p : F) (detail : F)
  | noise_turbulence_2d (p : float2 F) (detail : F)
  | noise_turbulence_3d (p : float3 F) (detail : F)
  | noise_turbulence_4d (p : float4 F) (detail : F)
deriving DecidableEq, Repr

/-- One access to a slot of the register stack. -/
inductive StackAccess where
  | load (a : Nat)
  | store (a : Nat)
deriving DecidableEq, Repr

/-- The mutable state of one node evaluation: the register stack (`stack`), the
instruction cursor (`*offset`), and the two instrumentation logs, oldest entry
first. -/
structure KernelState (F : Type) where
  stack : Nat → F
  offset : Int
  calls : List (NoiseCall F)
  accesses : List StackAccess

/-- A kernel computation: it transforms the state and either returns a result
or aborts (`none`). -/
def SVM (F α : Type) : Type := KernelState F → Option α × KernelState F

/-- Return without touching the state. -/
def SVM.pure {F α : Type} (a : α) : SVM F α := fun s => (some a, s)

/-- Sequencing: an abort ends the computation. -/
def SVM.bind {F α β : Type} (m : SVM F α) (f : α → SVM F β) : SVM F β := fun s =>
  match m s with
  | (some a, s1) => f a s1
  | (none, s1) => (none, s1)

instance (F : Type) : Monad (SVM F) where
  pure := SVM.pure
  bind := SVM.bind

variable {F : Type}

/-! ## Vector arithmetic (`util_math`) -/

/-- Componentwise `a + b` on `float2`. -/
def float2.add (E : Externals F) (a b : float2 F) : float2 F :=
  ⟨E.add a.x b.x, E.add a.y b.y⟩

/-- Componentwise `a + b` on `float3`. -/
def float3.add (E : Externals F) (a b : float3 F) : float3 F :=
  ⟨E.add a.x b.x, E.add a.y b.y, E.add a.z b.z⟩

/-- Componentwise `a + b` on `float4`. -/
def float4.add (E : Externals F) (a b : float4 F) : float4 F :=
  ⟨E.add a.x b.x, E.add a.y b.y, E.add a.z b.z, E.add a.w b.w⟩

/-- Scaling `a * f` of a `float3` by a float, as in `vector *= scale`. -/
def float3.scale (E : Externals F) (a : float3 F) (f : F) : float3 F :=
  ⟨E.mul a.x f, E.mul a.y f, E.mul a.z f⟩

/-! ## Instrumented primitives -/

/-- Call `noise_1d` and log the call. -/
def call_noise_1d (E : Externals F) (p : F) : SVM F F := fun s =>
  (some (E.noise_1d p), { s with calls := s.calls ++ [NoiseCall.noise_1d p] })

/-- Call `noise_2d` and log the call. -/
def call_noise_2d (E : Externals F) (p : float2 F) : SVM F F := fun s =>
  (some (E.noise_2d p), { s with calls := s.calls ++ [NoiseCall.noise_2d p] })

/-- Call `noise_3d` and log the call. -/
def call_noise_3d (E : Externals F) (p : float3 F) : SVM F F := fun s =>
  (some (E.noise_3d p), { s with calls := s.calls ++ [NoiseCall.noise_3d p] })

/-- Call `noise_4d` and log the call. -/
def call_noise_4d (E : Externals F) (p : float4 F) : SVM F F := fun s =>
  (some (E.noise_4d p), { s with calls := s.calls ++ [NoiseCall.noise_4d p] })

/-- Call `noise_turbulence_1d` and log the call. -/
def call_noise_turbulence_1d (E : Externals F) (p : F) (detail : F) : SVM F F := fun s =>
  (some (E.noise_turbulence_1d p detail),
   { s with calls := s.calls ++ [NoiseCall.noise_turbulence_1d p detail] })

/-- Call `noise_turbulence_2d` and log the call. -/
def call_noise_turbulence_2d (E : Externals F) (p : float2 F) (detail : F) : SVM F F := fun s =>
  (some (E.noise_turbulence_2d p detail),
   { s with calls := s.calls ++ [NoiseCall.noise_turbulence_2d p detail] })

/-- Call `noise_turbulence_3d` and log the call. -/
def call_noise_turbulence_3d (E : Externals F) (p : float3 F) (detail : F) : SVM F F := fun s =>
  (some (E.noise_turbulence_3d p detail),
   { s with calls := s.calls ++ [NoiseCall.noise_turbulence_3d p detail] })

/-- Call `noise_turbulence_4d` and log the call. -/
def call_noise_turbulence_4d (E : Externals F) (p : float4 F) (detail : F) : SVM F F := fun s =>
  (some (E.noise_turbulence_4d p detail),
   { s with calls := s.calls ++ [NoiseCall.noise_turbulence_4d p detail] })

/-! ## Seed offsets (`svm_noisetex.h`, lines 27-51) -/

/-- Source: `random_float_offset`. -/
def random_float_offset (E : Externals F) (seed : F) : F :=
  E.add (E.ofNat 100) (E.mul (E.hash_float_to_float seed) (E.ofNat 100))

/-- Source: `random_float2_offset`. -/
def random_float2_offset (E : Externals F) (seed : F) : float2 F :=
  ⟨E.add (E.ofNat 100) (E.mul (E.hash_float2_to_float ⟨seed, E.ofNat 0⟩) (E.ofNat 100)),
   E.add (E.ofNat 100) (E.mul (E.hash_float2_to_float ⟨seed, E.ofNat 1⟩) (E.ofNat 100))⟩

/-- Source: `random_float3_offset`. -/
def random_float3_offset (E : Externals F) (seed : F) : float3 F :=
  ⟨E.add (E.ofNat 100) (E.mul (E.hash_float2_to_float ⟨seed, E.ofNat 0⟩) (E.ofNat 100)),
   E.add (E.ofNat 100) (E.mul (E.hash_float2_to_float ⟨seed, E.ofNat 1⟩) (E.ofNat 100)),
   E.add (E.ofNat 100) (E.mul (E.hash_float2_to_float ⟨seed, E.ofNat 2⟩) (E.ofNat 100))⟩

/-- Source: `random_float4_offset`. -/
def random_float4_offset (E : Externals F) (seed : F) : float4 F :=
  ⟨E.add (E.ofNat 100) (E.mul (E.hash_float2_to_float ⟨seed, E.ofNat 0⟩) (E.ofNat 100)),
   E.add (E.ofNat 100) (E.mul (E.hash_float2_to_float ⟨seed, E.ofNat 1⟩) (E.ofNat 100)),
   E.add (E.ofNat 100) (E.mul (E.hash_float2_to_float ⟨seed, E.ofNat 2⟩) (E.ofNat 100)),
   E.add (E.ofNat 100) (E.mul (E.hash_float2_to_float ⟨seed, E.ofNat 3⟩) (E.ofNat 100))⟩

/-! ## Turbulence evaluators (`svm_noisetex.h`, lines 53-117)

The out-parameters `*value` and `*color` are passed in with their previous
contents and returned as a pair. -/

/-- Source: `tex_noise_1d`. -/
def tex_noise_1d (E : Externals F) (p detail distortion : F) (color_is_needed : Bool)
    (value : F) (color : float3 F) : SVM F (F × float3 F) := do
  let mut p := p
  let mut value := value
  let mut color := color
  if E.neq distortion (E.ofNat 0) then
    let n ← call_noise_1d E (E.add p (random_float_offset E (E.ofNat 0)))
    p := E.add p (E.mul n distortion)
  value ← call_noise_turbulence_1d E p detail
  if color_is_needed then
    let c1 ← call_noise_turbulence_1d E (E.add p (random_float_offset E (E.ofNat 1))) detail
    let c2 ← call_noise_turbulence_1d E (E.add p (random_float_offset E (E.ofNat 2))) detail
    color := ⟨value, c1, c2⟩
  return (value, color)

/-- Source: `tex_noise_2d`. -/
def tex_noise_2d (E : Externals F) (p : float2 F) (detail distortion : F)
    (color_is_needed : Bool) (value : F) (color : float3 F) : SVM F (F × float3 F) := do
  let mut p := p
  let mut value := value
  let mut color := color
  if E.neq distortion (E.ofNat 0) then
    let n0 ← call_noise_2d E (float2.add E p (random_float2_offset E (E.ofNat 0)))
    let n1 ← call_noise_2d E (float2.add E p (random_float2_offset E (E.ofNat 1)))
    p := float2.add E p ⟨E.mul n0 distortion, E.mul n1 distortion⟩
  value ← call_noise_turbulence_2d E p detail
  if color_is_needed then
    let c1 ← call_noise_turbulence_2d E (float2.add E p (random_float2_offset E (E.ofNat 2))) detail
    let c2 ← call_noise_turbulence_2d E (float2.add E p (random_float2_offset E (E.ofNat 3))) detail
    color := ⟨value, c1, c2⟩
  return (value, color)

/-- Source: `tex_noise_3d`. -/
def tex_noise_3d (E : Externals F) (p : float3 F) (detail distortion : F)
    (color_is_needed : Bool) (value : F) (color : float3 F) : SVM F (F × float3 F) := do
  let mut p := p
  let mut value := value
  let mut color := color
  if E.neq distortion (E.ofNat 0) then
    let n0 ← call_noise_3d E (float3.add E p (random_float3_offset E (E.ofNat 0)))
    let n1 ← call_noise_3d E (float3.add E p (random_float3_offset E (E.ofNat 1)))
    let n2 ← call_noise_3d E (float3.add E p (random_float3_offset E (E.ofNat 2)))
    p := float3.add E p ⟨E.mul n0 distortion, E.mul n1 distortion, E.mul n2 distortion⟩
  value ← call_noise_turbulence_3d E p detail
  if color_is_needed then
    let c1 ← call_noise_turbulence_3d E (float3.add E p (random_float3_offset E (E.ofNat 3))) detail
    let c2 ← call_noise_turbulence_3d E (float3.add E p (random_float3_offset E (E.ofNat 4))) detail
    color := ⟨value, c1, c2⟩
  return (value, color)

/-- Source: `tex_noise_4d`. -/
def tex_noise_4d (E : Externals F) (p : float4 F) (detail distortion : F)
    (color_is_needed : Bool) (value : F) (color : float3 F) : SVM F (F × float3 F) := do
  let mut p := p
  let mut value := value
  let mut color := color
  if E.neq distortion (E.ofNat 0) then
    let n0 ← call_noise_4d E (float4.add E p (random_float4_offset E (E.ofNat 0)))
    let n1 ← call_noise_4d E (float4.add E p (random_float4_offset E (E.ofNat 1)))
    let n2 ← call_noise_4d E (float4.add E p (random_float4_offset E (E.ofNat 2)))
    let n3 ← call_noise_4d E (float4.add E p (random_float4_offset E (E.ofNat 3)))
    p := float4.add E p
      ⟨E.mul n0 distortion, E.mul n1 distortion, E.mul n2 distortion, E.mul n3 distortion⟩
  value ← call_noise_turbulence_4d E p detail
  if color_is_needed then
    let c1 ← call_noise_turbulence_4d E (float4.add E p (random_float4_offset E (E.ofNat 4))) detail
    let c2 ← call_noise_turbulence_4d E (float4.add E p (random_float4_offset E (E.ofNat 5))) detail
    color := ⟨value, c1, c2⟩
  return (value, color)

/-! ## Interpreter conventions the node relies on

The node calls these helpers of the interpreter; their definitions are not part
of `svm_noisetex.h`. -/

/-- Modelled from the spec: `decode_node_uchar4` is missing. A packed word holds
four 8-bit fields; field `x` is bits 0-7, `y` bits 8-15, `z` bits 16-23 and `w`
bits 24-31. A caller that passes `NULL` for a field ignores that component. -/
def decode_node_uchar4 (i : Nat) : uint4 :=
  ⟨i % 256, i / 256 % 256, i / 65536 % 256, i / 16777216 % 256⟩

/-- Modelled from the spec: `read_node` is missing. It reads the next
fixed-width word of the instruction stream and advances the cursor. -/
def read_node (kg : KernelGlobals) : SVM F uint4 := fun s =>
  (some (kg.svm_nodes s.offset), { s with offset := s.offset + 1 })

/-- Modelled from the spec: `stack_valid` is missing. `isValid(offset)` holds when
the offset is not the sentinel. -/
def stack_valid (E : Externals F) (a : Nat) : Bool :=
  a != E.SVM_STACK_INVALID

/-- Modelled from the spec: `stack_load_float` is missing. It reads one slot of the
register stack. -/
def stack_load_float (a : Nat) : SVM F F := fun s =>
  (some (s.stack a), { s with accesses := s.accesses ++ [StackAccess.load a] })

/-- Modelled from the spec: `stack_load_float3` is missing. `loadVector3(stack,
offset)` reads the three consecutive slots `a`, `a+1`, `a+2`. -/
def stack_load_float3 (a : Nat) : SVM F (float3 F) := do
  let x ← stack_load_float a
  let y ← stack_load_float (a + 1)
  let z ← stack_load_float (a + 2)
  return ⟨x, y, z⟩

/-- Modelled from the spec: `stack_load_float_default` is missing.
`loadScalarOrDefault(stack, offset, literal)` returns the literal (a word
reinterpreted as a float) if the offset is absent, else the stack value. -/
def stack_load_float_default (E : Externals F) (a : Nat) (value : Nat) : SVM F F :=
  if a = E.SVM_STACK_INVALID then pure (E.uint_as_float value) else stack_load_float a

/-- Modelled from the spec: `stack_store_float` is missing. `storeScalar(stack,
offset, v)` writes one slot of the register stack. -/
def stack_store_float (a : Nat) (f : F) : SVM F Unit := fun s =>
  (some (), { s with stack := fun i => if i = a then f else s.stack i,
                     accesses := s.accesses ++ [StackAccess.store a] })

/-- Modelled from the spec: `stack_store_float3` is missing. `storeVector3(stack,
offset, v)` writes the three consecutive slots `a`, `a+1`, `a+2`. -/
def stack_store_float3 (a : Nat) (f : float3 F) : SVM F Unit := do
  stack_store_float a f.x
  stack_store_float (a + 1) f.y
  stack_store_float (a + 2) f.z

/-- Modelled from the spec: `kernel_assert` is missing. A failed assertion aborts
the evaluation ("abort evaluation ... not a recoverable error"). -/
def kernel_assert (cond : Bool) : SVM F Unit := fun s =>
  if cond then (some (), s) else (none, s)

/-! ## The node handler (`svm_noisetex.h`, lines 119-180) -/

/-- The locals of `svm_node_tex_noise` that are live after line 139. -/
structure NoiseOperands (F : Type) where
  vector : float3 F
  w : F
  scale : F
  detail : F
  distortion : F
  value_offset : Nat
  color_offset : Nat

/-- Source: `svm_node_tex_noise`, lines 127-139: decode the two packed words,
read the trailing node and load the operands. -/
def svm_node_tex_noise_load (E : Externals F) (kg : KernelGlobals)
    (offsets1 offsets2 : Nat) : SVM F (NoiseOperands F) := do
  let d1 := decode_node_uchar4 offsets1
  let vector_offset := d1.x
  let w_offset := d1.y
  let scale_offset := d1.z
  let detail_offset := d1.w
  let d2 := decode_node_uchar4 offsets2
  let distortion_offset := d2.x
  let value_offset := d2.y
  let color_offset := d2.z
  let node1 ← read_node kg
  let vector ← stack_load_float3 vector_offset
  let w ← stack_load_float_default E w_offset node1.x
  let scale ← stack_load_float_default E scale_offset node1.y
  let detail ← stack_load_float_default E detail_offset node1.z
  let distortion ← stack_load_float_default E distortion_offset node1.w
  return ⟨vector, w, scale, detail, distortion, value_offset, color_offset⟩

/-- Source: `svm_node_tex_noise`, lines 141-172: scale the position and `w`,
declare the locals `value` and `color`, and evaluate the noise for the requested
dimensionality. Returns the locals `value` and `color`. -/
def svm_node_tex_noise_switch (E : Externals F) (dimensions : Nat)
    (ops : NoiseOperands F) : SVM F (F × float3 F) := do
  let vector := float3.scale E ops.vector ops.scale
  let w := E.mul ops.w ops.scale
  let mut value := E.uninit_float
  let mut color := E.uninit_float3
  match dimensions with
  | 1 =>
    (value, color) ← tex_noise_1d E w ops.detail ops.distortion
      (stack_valid E ops.color_offset) value color
  | 2 =>
    (value, color) ← tex_noise_2d E ⟨vector.x, vector.y⟩ ops.detail ops.distortion
      (stack_valid E ops.color_offset) value color
  | 3 =>
    (value, color) ← tex_noise_3d E vector ops.detail ops.distortion
      (stack_valid E ops.color_offset) value color
  | 4 =>
    (value, color) ← tex_noise_4d E ⟨vector.x, vector.y, vector.z, w⟩ ops.detail ops.distortion
      (stack_valid E ops.color_offset) value color
  | _ => kernel_assert false
  return (value, color)

/-- Source: `svm_node_tex_noise`, lines 174-179: store the requested outputs. -/
def svm_node_tex_noise_store (E : Externals F) (ops : NoiseOperands F)
    (value : F) (color : float3 F) : SVM F Unit := do
  if stack_valid E ops.value_offset then
    stack_store_float ops.value_offset value
  if stack_valid E ops.color_offset then
    stack_store_float3 ops.color_offset color

/-- Source: `svm_node_tex_noise`. The pointers `stack` and `offset` are the
fields of the state; `sd` is not used by the node. -/
def svm_node_tex_noise (E : Externals F) (kg : KernelGlobals)
    (dimensions offsets1 offsets2 : Nat) : SVM F Unit := do
  let ops ← svm_node_tex_noise_load E kg offsets1 offsets2
  let (value, color) ← svm_node_tex_noise_switch E dimensions ops
  svm_node_tex_noise_store E ops value color

/-! ## A concrete instance

Integer arithmetic stands in for the floats and small polynomials for the hash
and noise primitives, so that the node can be evaluated on concrete inputs. -/

/-- Sample externals over `Int`; the sentinel is 255. -/
def sampleExternals : Externals Int where
  add := fun a b => a + b
  mul := fun a b => a * b
  neq := fun a b => a != b
  ofNat := fun n => (n : Int)
  uint_as_float := fun n => (n : Int)
  uninit_float := -1
  uninit_float3 := ⟨-2, -3, -4⟩
  SVM_STACK_INVALID := 255
  hash_float_to_float := fun x => x + 1
  hash_float2_to_float := fun p => 2 * p.x + p.y
  noise_1d := fun p => p + 3
  noise_2d := fun p => p.x + 2 * p.y
  noise_3d := fun p => p.x + 2 * p.y + 3 * p.z
  noise_4d := fun p => p.x + 2 * p.y + 3 * p.z + 4 * p.w
  noise_turbulence_1d := fun p d => 7 * p + d
  noise_turbulence_2d := fun p d => 7 * p.x + 5 * p.y + d
  noise_turbulence_3d := fun p d => 7 * p.x + 5 * p.y + 3 * p.z + d
  noise_turbulence_4d := fun p d => 7 * p.x + 5 * p.y + 3 * p.z + 2 * p.w + d

/-- Sample instruction stream: every node carries the literals
`w = 5, scale = 1, detail = 1, distortion = 2`. -/
def sampleGlobals : KernelGlobals where
  svm_nodes := fun _ => ⟨5, 1, 1, 2⟩

/-- Sample state: slot `i` of the stack holds `i + 10`, the cursor is at 40 and
both logs are empty. -/
def sampleState : KernelState Int where
  stack := fun i => (i : Int) + 10
  offset := 40
  calls := []
  accesses := []

/-- Pack four 8-bit fields into a word, `x` in the low byte. -/
def pack4 (x y z w : Nat) : Nat :=
  x + 256 * y + 65536 * z + 16777216 * w

/-! ## Two arithmetics for the offset generators

The offset generators compute `100.0f + hash * 100.0f` in single precision. The
first instance below rounds every sum and product to a 24-bit significand, as
IEEE-754 binary32 does in its default rounding mode; the second computes
exactly. -/

/-- A non-negative dyadic number `sig * 2^exp`: the value of a finite
non-negative binary float, with no bound on the exponent. -/
structure Dyadic where
  sig : Nat
  exp : Int
deriving DecidableEq, Repr

/-- The rational number a dyadic stands for. -/
def Dyadic.val (x : Dyadic) : ℚ := (x.sig : ℚ) * (2 : ℚ) ^ x.exp

/-- Number of binary digits of `n` (`fuel` bounds the recursion; `fuel = n`
always suffices). -/
def bit_length : Nat → Nat → Nat
  | 0, _ => 0
  | fuel + 1, n => if n = 0 then 0 else bit_length fuel (n / 2) + 1

/-- Round to nearest with a 24-bit significand, ties to even: the default
rounding of IEEE-754 binary32, exponent range aside. A significand rounded up to
`2^24` is kept as it is; it stands for the same number as `2^23` with the next
exponent. -/
def Dyadic.round24 (x : Dyadic) : Dyadic :=
  if x.sig < 2 ^ 24 then x
  else
    let sh := bit_length x.sig x.sig - 24
    let q := x.sig / 2 ^ sh
    let r := x.sig % 2 ^ sh
    let half := 2 ^ (sh - 1)
    if half < r ∨ (r = half ∧ q % 2 = 1) then ⟨q + 1, x.exp + sh⟩ else ⟨q, x.exp + sh⟩

/-- Correctly rounded product. -/
def Dyadic.mul (x y : Dyadic) : Dyadic :=
  Dyadic.round24 ⟨x.sig * y.sig, x.exp + y.exp⟩

/-- Correctly rounded sum. -/
def Dyadic.add (x y : Dyadic) : Dyadic :=
  let e := if x.exp ≤ y.exp then x.exp else y.exp
  Dyadic.round24 ⟨x.sig * 2 ^ (x.exp - e).toNat + y.sig * 2 ^ (y.exp - e).toNat, e⟩

/-- Comparison `x != y` of the values of two dyadics. -/
def Dyadic.neq (x y : Dyadic) : Bool :=
  let e := if x.exp ≤ y.exp then x.exp else y.exp
  x.sig * 2 ^ (x.exp - e).toNat != y.sig * 2 ^ (y.exp - e).toNat

/-- The binary32 value of a bit pattern that encodes a finite non-negative
float; every other pattern is mapped to zero. -/
def Dyadic.of_bits (n : Nat) : Dyadic :=
  if 2 ^ 31 ≤ n ∨ n / 2 ^ 23 % 256 = 255 then ⟨0, 0⟩
  else if n / 2 ^ 23 % 256 = 0 then ⟨n % 2 ^ 23, -149⟩
  else ⟨2 ^ 23 + n % 2 ^ 23, (n / 2 ^ 23 % 256 : Nat) - 150⟩

/-- Externals with single-precision rounding on non-negative values: sums and
products are rounded by `Dyadic.round24`. The hash primitives are the given
functions `h1` and `h2`; the noise primitives, which the offset generators do
not call, return zero. -/
def roundedExternals (h1 : Dyadic → Dyadic) (h2 : float2 Dyadic → Dyadic) :
    Externals Dyadic where
  add := Dyadic.add
  mul := Dyadic.mul
  neq := Dyadic.neq
  ofNat := fun n => Dyadic.round24 ⟨n, 0⟩
  uint_as_float := Dyadic.of_bits
  uninit_float := ⟨0, 0⟩
  uninit_float3 := ⟨⟨0, 0⟩, ⟨0, 0⟩, ⟨0, 0⟩⟩
  SVM_STACK_INVALID := 255
  hash_float_to_float := h1
  hash_float2_to_float := h2
  noise_1d := fun _ => ⟨0, 0⟩
  noise_2d := fun _ => ⟨0, 0⟩
  noise_3d := fun _ => ⟨0, 0⟩
  noise_4d := fun _ => ⟨0, 0⟩
  noise_turbulence_1d := fun _ _ => ⟨0, 0⟩
  noise_turbulence_2d := fun _ _ => ⟨0, 0⟩
  noise_turbulence_3d := fun _ _ => ⟨0, 0⟩
  noise_turbulence_4d := fun _ _ => ⟨0, 0⟩

/-- Externals with exact rational arithmetic. Both hash primitives return the
constant `h`; the noise primitives return zero. -/
def exactExternals (h : ℚ) : Externals ℚ where
  add := fun a b => a + b
  mul := fun a b => a * b
  neq := fun a b => a != b
  ofNat := fun n => (n : ℚ)
  uint_as_float := fun n => (n : ℚ)
  uninit_float := 0
  uninit_float3 := ⟨0, 0, 0⟩
  SVM_STACK_INVALID := 255
  hash_float_to_float := fun _ => h
  hash_float2_to_float := fun _ => h
  noise_1d := fun _ => 0
  noise_2d := fun _ => 0
  noise_3d := fun _ => 0
  noise_4d := fun _ => 0
  noise_turbulence_1d := fun _ _ => 0
  noise_turbulence_2d := fun _ _ => 0
  noise_turbulence_3d := fun _ _ => 0
  noise_turbulence_4d := fun _ _ => 0

/-! ## Basic facts about the monad and the helpers -/

@[simp] theorem SVM.pure_apply {α : Type} (a : α) (s : KernelState F) :
    (Pure.pure a : SVM F α) s = (some a, s) := rfl

@[simp] theorem SVM.bind_apply {α β : Type} (m : SVM F α) (f : α → SVM F β)
    (s : KernelState F) :
    (m >>= f) s = match m s with
      | (some a, s1) => f a s1
      | (none, s1) => (none, s1) := rfl

/-- The evaluator `tex_noise_1d` always returns, and only extends the call log. -/
theorem tex_noise_1d_frame (E : Externals F) (p detail distortion : F) (cin : Bool)
    (v0 : F) (c0 : float3 F) (s : KernelState F) :
    ∃ r l, tex_noise_1d E p detail distortion cin v0 c0 s
      = (some r, { s with calls := s.calls ++ l }) := by
  unfold tex_noise_1d
  by_cases h : E.neq distortion (E.ofNat 0) = true <;> cases cin <;>
    simp [h, call_noise_1d, call_noise_turbulence_1d]

/-- The evaluator `tex_noise_2d` always returns, and only extends the call log. -/
theorem tex_noise_2d_frame (E : Externals F) (p : float2 F) (detail distortion : F)
    (cin : Bool) (v0 : F) (c0 : float3 F) (s : KernelState F) :
    ∃ r l, tex_noise_2d E p detail distortion cin v0 c0 s
      = (some r, { s with calls := s.calls ++ l }) := by
  unfold tex_noise_2d
  by_cases h : E.neq distortion (E.ofNat 0) = true <;> cases cin <;>
    simp [h, call_noise_2d, call_noise_turbulence_2d]

/-- The evaluator `tex_noise_3d` always returns, and only extends the call log. -/
theorem tex_noise_3d_frame (E : Externals F) (p : float3 F) (detail distortion : F)
    (cin : Bool) (v0 : F) (c0 : float3 F) (s : KernelState F) :
    ∃ r l, tex_noise_3d E p detail distortion cin v0 c0 s
      = (some r, { s with calls := s.calls ++ l }) := by
  unfold tex_noise_3d
  by_cases h : E.neq distortion (E.ofNat 0) = true <;> cases cin <;>
    simp [h, call_noise_3d, call_noise_turbulence_3d]

/-- The evaluator `tex_noise_4d` always returns, and only extends the call log. -/
theorem tex_noise_4d_frame (E : Externals F) (p : float4 F) (detail distortion : F)
    (cin : Bool) (v0 : F) (c0 : float3 F) (s : KernelState F) :
    ∃ r l, tex_noise_4d E p detail distortion cin v0 c0 s
      = (some r, { s with calls := s.calls ++ l }) := by
  unfold tex_noise_4d
  by_cases h : E.neq distortion (E.ofNat 0) = true <;> cases cin <;>
    simp [h, call_noise_4d, call_noise_turbulence_4d]

/-! ## The evaluators -/

/-- C1: for every dimensionality 1 to 4, every position, detail and distortion,
when color is requested the evaluator returns, and the first component of the
color it produces equals the scalar value it produces. -/
theorem color_first_channel_is_value (E : Externals F) (detail distortion v0 : F)
    (c0 : float3 F) (s : KernelState F) :
    (∀ p, ∃ r s1, tex_noise_1d E p detail distortion true v0 c0 s = (some r, s1)
        ∧ r.2.x = r.1) ∧
    (∀ p, ∃ r s1, tex_noise_2d E p detail distortion true v0 c0 s = (some r, s1)
        ∧ r.2.x = r.1) ∧
    (∀ p, ∃ r s1, tex_noise_3d E p detail distortion true v0 c0 s = (some r, s1)
        ∧ r.2.x = r.1) ∧
    (∀ p, ∃ r s1, tex_noise_4d E p detail distortion true v0 c0 s = (some r, s1)
        ∧ r.2.x = r.1) := by
  refine ⟨fun p => ?_, fun p => ?_, fun p => ?_, fun p => ?_⟩
  · unfold tex_noise_1d
    by_cases h : E.neq distortion (E.ofNat 0) = true <;>
      simp [h, call_noise_1d, call_noise_turbulence_1d]
  · unfold tex_noise_2d
    by_cases h : E.neq distortion (E.ofNat 0) = true <;>
      simp [h, call_noise_2d, call_noise_turbulence_2d]
  · unfold tex_noise_3d
    by_cases h : E.neq distortion (E.ofNat 0) = true <;>
      simp [h, call_noise_3d, call_noise_turbulence_3d]
  · unfold tex_noise_4d
    by_cases h : E.neq distortion (E.ofNat 0) = true <;>
      simp [h, call_noise_4d, call_noise_turbulence_4d]

/-- C6: when `distortion != 0.0f` is false, every evaluator returns
`noise_turbulence_D(p, detail)` at the unperturbed position as its value and
calls no `noise_D`: the calls it logs are exactly one turbulence evaluation when
color is not needed, and exactly three when it is. -/
theorem zero_distortion_skips_warp (E : Externals F) (detail distortion v0 : F)
    (c0 : float3 F) (s : KernelState F) (hd : E.neq distortion (E.ofNat 0) = false) :
    (∀ p : F, tex_noise_1d E p detail distortion false v0 c0 s =
        (some (E.noise_turbulence_1d p detail, c0),
         { s with calls := s.calls ++ [NoiseCall.noise_turbulence_1d p detail] })) ∧
    (∀ p : F, tex_noise_1d E p detail distortion true v0 c0 s =
        (some (E.noise_turbulence_1d p detail,
            ⟨E.noise_turbulence_1d p detail,
             E.noise_turbulence_1d (E.add p (random_float_offset E (E.ofNat 1))) detail,
             E.noise_turbulence_1d (E.add p (random_float_offset E (E.ofNat 2))) detail⟩),
         { s with calls := s.calls ++
            [NoiseCall.noise_turbulence_1d p detail,
             NoiseCall.noise_turbulence_1d (E.add p (random_float_offset E (E.ofNat 1))) detail,
             NoiseCall.noise_turbulence_1d (E.add p (random_float_offset E (E.ofNat 2))) detail] })) ∧
    (∀ p : float2 F, tex_noise_2d E p detail distortion false v0 c0 s =
        (some (E.noise_turbulence_2d p detail, c0),
         { s with calls := s.calls ++ [NoiseCall.noise_turbulence_2d p detail] })) ∧
    (∀ p : float2 F, tex_noise_2d E p detail distortion true v0 c0 s =
        (some (E.noise_turbulence_2d p detail,
            ⟨E.noise_turbulence_2d p detail,
             E.noise_turbulence_2d (float2.add E p (random_float2_offset E (E.ofNat 2))) detail,
             E.noise_turbulence_2d (float2.add E p (random_float2_offset E (E.ofNat 3))) detail⟩),
         { s with calls := s.calls ++
            [NoiseCall.noise_turbulence_2d p detail,
             NoiseCall.noise_turbulence_2d (float2.add E p (random_float2_offset E (E.ofNat 2))) detail,
             NoiseCall.noise_turbulence_2d (float2.add E p (random_float2_offset E (E.ofNat 3))) detail] })) ∧
    (∀ p : float3 F, tex_noise_3d E p detail distortion false v0 c0 s =
        (some (E.noise_turbulence_3d p detail, c0),
         { s with calls := s.calls ++ [NoiseCall.noise_turbulence_3d p detail] })) ∧
    (∀ p : float3 F, tex_noise_3d E p detail distortion true v0 c0 s =
        (some (E.noise_turbulence_3d p detail,
            ⟨E.noise_turbulence_3d p detail,
             E.noise_turbulence_3d (float3.add E p (random_float3_offset E (E.ofNat 3))) detail,
             E.noise_turbulence_3d (float3.add E p (random_float3_offset E (E.ofNat 4))) detail⟩),
         { s with calls := s.calls ++
            [NoiseCall.noise_turbulence_3d p detail,
             NoiseCall.noise_turbulence_3d (float3.add E p (random_float3_offset E (E.ofNat 3))) detail,
             NoiseCall.noise_turbulence_3d (float3.add E p (random_float3_offset E (E.ofNat 4))) detail] })) ∧
    (∀ p : float4 F, tex_noise_4d E p detail distortion false v0 c0 s =
        (some (E.noise_turbulence_4d p detail, c0),
         { s with calls := s.calls ++ [NoiseCall.noise_turbulence_4d p detail] })) ∧
    (∀ p : float4 F, tex_noise_4d E p detail distortion true v0 c0 s =
        (some (E.noise_turbulence_4d p detail,
            ⟨E.noise_turbulence_4d p detail,
             E.noise_turbulence_4d (float4.add E p (random_float4_offset E (E.ofNat 4))) detail,
             E.noise_turbulence_4d (float4.add E p (random_float4_offset E (E.ofNat 5))) detail⟩),
         { s with calls := s.calls ++
            [NoiseCall.noise_turbulence_4d p detail,
             NoiseCall.noise_turbulence_4d (float4.add E p (random_float4_offset E (E.ofNat 4))) detail,
             NoiseCall.noise_turbulence_4d (float4.add E p (random_float4_offset E (E.ofNat 5))) detail] })) := by
  refine ⟨fun p => ?_, fun p => ?_, fun p => ?_, fun p => ?_, fun p => ?_, fun p => ?_,
    fun p => ?_, fun p => ?_⟩
  · simp [tex_noise_1d, hd, call_noise_turbulence_1d]
  · simp [tex_noise_1d, hd, call_noise_turbulence_1d]
  · simp [tex_noise_2d, hd, call_noise_turbulence_2d]
  · simp [tex_noise_2d, hd, call_noise_turbulence_2d]
  · simp [tex_noise_3d, hd, call_noise_turbulence_3d]
  · simp [tex_noise_3d, hd, call_noise_turbulence_3d]
  · simp [tex_noise_4d, hd, call_noise_turbulence_4d]
  · simp [tex_noise_4d, hd, call_noise_turbulence_4d]

/-- Witness of C6: with distortion 0 the sample 3D evaluation without color logs
the single call `noise_turbulence_3d((1,2,3), 2)` and returns its result, 28. -/
theorem zero_distortion_skips_warp_witness :
    sampleExternals.neq 0 (sampleExternals.ofNat 0) = false ∧
    tex_noise_3d sampleExternals ⟨1, 2, 3⟩ 2 0 false 0 ⟨0, 0, 0⟩ sampleState =
      (some (28, ⟨0, 0, 0⟩),
       { sampleState with calls := [NoiseCall.noise_turbulence_3d ⟨1, 2, 3⟩ 2] }) :=
  ⟨by decide,
   (zero_distortion_skips_warp sampleExternals 2 0 0 ⟨0, 0, 0⟩ sampleState
      (by decide)).2.2.2.2.1 ⟨1, 2, 3⟩⟩

/-! ## The node handler, phase by phase -/

/-- The operand phase in closed form: the operands it resolves and the state it
leaves (cursor advanced by one, loads logged, stack untouched). -/
theorem load_run (E : Externals F) (kg : KernelGlobals) (o1 o2 : Nat) (s : KernelState F) :
    svm_node_tex_noise_load E kg o1 o2 s =
      (some ⟨⟨s.stack (o1 % 256), s.stack (o1 % 256 + 1), s.stack (o1 % 256 + 2)⟩,
          if o1 / 256 % 256 = E.SVM_STACK_INVALID then E.uint_as_float (kg.svm_nodes s.offset).x
            else s.stack (o1 / 256 % 256),
          if o1 / 65536 % 256 = E.SVM_STACK_INVALID then E.uint_as_float (kg.svm_nodes s.offset).y
            else s.stack (o1 / 65536 % 256),
          if o1 / 16777216 % 256 = E.SVM_STACK_INVALID
            then E.uint_as_float (kg.svm_nodes s.offset).z
            else s.stack (o1 / 16777216 % 256),
          if o2 % 256 = E.SVM_STACK_INVALID then E.uint_as_float (kg.svm_nodes s.offset).w
            else s.stack (o2 % 256),
          o2 / 256 % 256, o2 / 65536 % 256⟩,
       { s with
         offset := s.offset + 1
         accesses := s.accesses ++
           [StackAccess.load (o1 % 256), StackAccess.load (o1 % 256 + 1),
            StackAccess.load (o1 % 256 + 2)] ++
           (if o1 / 256 % 256 = E.SVM_STACK_INVALID then []
             else [StackAccess.load (o1 / 256 % 256)]) ++
           (if o1 / 65536 % 256 = E.SVM_STACK_INVALID then []
             else [StackAccess.load (o1 / 65536 % 256)]) ++
           (if o1 / 16777216 % 256 = E.SVM_STACK_INVALID then []
             else [StackAccess.load (o1 / 16777216 % 256)]) ++
           (if o2 % 256 = E.SVM_STACK_INVALID then [] else [StackAccess.load (o2 % 256)]) }) := by
  simp only [svm_node_tex_noise_load, decode_node_uchar4, read_node, stack_load_float3,
    stack_load_float_default, stack_load_float, SVM.bind_apply, SVM.pure_apply]
  by_cases h1 : o1 / 256 % 256 = E.SVM_STACK_INVALID <;>
  by_cases h2 : o1 / 65536 % 256 = E.SVM_STACK_INVALID <;>
  by_cases h3 : o1 / 16777216 % 256 = E.SVM_STACK_INVALID <;>
  by_cases h4 : o2 % 256 = E.SVM_STACK_INVALID <;>
  simp [h1, h2, h3, h4, stack_load_float]

/-- The store phase in closed form. -/
theorem store_run (E : Externals F) (ops : NoiseOperands F) (v : F) (c : float3 F)
    (s : KernelState F) :
    svm_node_tex_noise_store E ops v c s =
      (some (),
       if stack_valid E ops.color_offset = true then
         { s with
           stack := fun i =>
             if i = ops.color_offset + 2 then c.z
             else if i = ops.color_offset + 1 then c.y
             else if i = ops.color_offset then c.x
             else if stack_valid E ops.value_offset = true ∧ i = ops.value_offset then v
             else s.stack i
           accesses := s.accesses ++
             (if stack_valid E ops.value_offset = true
               then [StackAccess.store ops.value_offset] else []) ++
             [StackAccess.store ops.color_offset, StackAccess.store (ops.color_offset + 1),
              StackAccess.store (ops.color_offset + 2)] }
       else
         { s with
           stack := fun i =>
             if stack_valid E ops.value_offset = true ∧ i = ops.value_offset then v
             else s.stack i
           accesses := s.accesses ++
             (if stack_valid E ops.value_offset = true
               then [StackAccess.store ops.value_offset] else []) }) := by
  cases hv : stack_valid E ops.value_offset <;> cases hc : stack_valid E ops.color_offset <;>
    simp [svm_node_tex_noise_store, stack_store_float, stack_store_float3, hv, hc]

/-- For `dimensions = 1` the switch runs `tex_noise_1d` on the scaled coordinate. -/
theorem switch_1 (E : Externals F) (ops : NoiseOperands F) (s : KernelState F) :
    svm_node_tex_noise_switch E 1 ops s =
      tex_noise_1d E (E.mul ops.w ops.scale) ops.detail ops.distortion
        (stack_valid E ops.color_offset) E.uninit_float E.uninit_float3 s := by
  obtain ⟨r, l, h⟩ := tex_noise_1d_frame E (E.mul ops.w ops.scale) ops.detail ops.distortion
    (stack_valid E ops.color_offset) E.uninit_float E.uninit_float3 s
  simp [svm_node_tex_noise_switch, float3.scale, h]

/-- For `dimensions = 2` the switch runs `tex_noise_2d` on the scaled coordinate. -/
theorem switch_2 (E : Externals F) (ops : NoiseOperands F) (s : KernelState F) :
    svm_node_tex_noise_switch E 2 ops s =
      tex_noise_2d E ⟨E.mul ops.vector.x ops.scale, E.mul ops.vector.y ops.scale⟩ ops.detail ops.distortion
        (stack_valid E ops.color_offset) E.uninit_float E.uninit_float3 s := by
  obtain ⟨r, l, h⟩ := tex_noise_2d_frame E ⟨E.mul ops.vector.x ops.scale, E.mul ops.vector.y ops.scale⟩ ops.detail ops.distortion
    (stack_valid E ops.color_offset) E.uninit_float E.uninit_float3 s
  simp [svm_node_tex_noise_switch, float3.scale, h]

/-- For `dimensions = 3` the switch runs `tex_noise_3d` on the scaled coordinate. -/
theorem switch_3 (E : Externals F) (ops : NoiseOperands F) (s : KernelState F) :
    svm_node_tex_noise_switch E 3 ops s =
      tex_noise_3d E ⟨E.mul ops.vector.x ops.scale, E.mul ops.vector.y ops.scale,
          E.mul ops.vector.z ops.scale⟩ ops.detail ops.distortion
        (stack_valid E ops.color_offset) E.uninit_float E.uninit_float3 s := by
  obtain ⟨r, l, h⟩ := tex_noise_3d_frame E ⟨E.mul ops.vector.x ops.scale, E.mul ops.vector.y ops.scale,
          E.mul ops.vector.z ops.scale⟩ ops.detail ops.distortion
    (stack_valid E ops.color_offset) E.uninit_float E.uninit_float3 s
  simp [svm_node_tex_noise_switch, float3.scale, h]

/-- For `dimensions = 4` the switch runs `tex_noise_4d` on the scaled coordinate. -/
theorem switch_4 (E : Externals F) (ops : NoiseOperands F) (s : KernelState F) :
    svm_node_tex_noise_switch E 4 ops s =
      tex_noise_4d E ⟨E.mul ops.vector.x ops.scale, E.mul ops.vector.y ops.scale,
          E.mul ops.vector.z ops.scale, E.mul ops.w ops.scale⟩ ops.detail ops.distortion
        (stack_valid E ops.color_offset) E.uninit_float E.uninit_float3 s := by
  obtain ⟨r, l, h⟩ := tex_noise_4d_frame E ⟨E.mul ops.vector.x ops.scale, E.mul ops.vector.y ops.scale,
          E.mul ops.vector.z ops.scale, E.mul ops.w ops.scale⟩ ops.detail ops.distortion
    (stack_valid E ops.color_offset) E.uninit_float E.uninit_float3 s
  simp [svm_node_tex_noise_switch, float3.scale, h]

/-- Any other `dimensions` reaches `kernel_assert(0)`: the switch aborts and
leaves the state as it found it. -/
theorem switch_abort (E : Externals F) (ops : NoiseOperands F) (s : KernelState F)
    (dimensions : Nat) (h1 : dimensions ≠ 1) (h2 : dimensions ≠ 2) (h3 : dimensions ≠ 3)
    (h4 : dimensions ≠ 4) :
    svm_node_tex_noise_switch E dimensions ops s = (none, s) := by
  unfold svm_node_tex_noise_switch
  split <;> simp_all [kernel_assert]

/-- For a supported dimensionality the switch returns and only extends the
call log. -/
theorem switch_frame (E : Externals F) (ops : NoiseOperands F) (s : KernelState F)
    (dimensions : Nat)
    (hdim : dimensions = 1 ∨ dimensions = 2 ∨ dimensions = 3 ∨ dimensions = 4) :
    ∃ r l, svm_node_tex_noise_switch E dimensions ops s
      = (some r, { s with calls := s.calls ++ l }) := by
  rcases hdim with h | h | h | h <;> subst h
  · rw [switch_1]; exact tex_noise_1d_frame _ _ _ _ _ _ _ _
  · rw [switch_2]; exact tex_noise_2d_frame _ _ _ _ _ _ _ _
  · rw [switch_3]; exact tex_noise_3d_frame _ _ _ _ _ _ _ _
  · rw [switch_4]; exact tex_noise_4d_frame _ _ _ _ _ _ _ _

/-- The node is its three phases in sequence. -/
theorem node_phases (E : Externals F) (kg : KernelGlobals) (dimensions o1 o2 : Nat)
    (s : KernelState F) :
    svm_node_tex_noise E kg dimensions o1 o2 s =
      match svm_node_tex_noise_load E kg o1 o2 s with
      | (some ops, s1) =>
        match svm_node_tex_noise_switch E dimensions ops s1 with
        | (some r, s2) => svm_node_tex_noise_store E ops r.1 r.2 s2
        | (none, s2) => (none, s2)
      | (none, s1) => (none, s1) := by
  simp only [svm_node_tex_noise, SVM.bind_apply, load_run]
  generalize svm_node_tex_noise_switch E dimensions _ _ = x
  rcases x with ⟨_ | r, s2⟩ <;> rfl


/-- What the operand phase leaves behind: it returns, the stack and the call log
are untouched, the cursor moved by one, no store was logged, and the two output
offsets are the second and third field of the second word. -/
theorem load_ok (E : Externals F) (kg : KernelGlobals) (o1 o2 : Nat) (s : KernelState F) :
    ∃ ops s1, svm_node_tex_noise_load E kg o1 o2 s = (some ops, s1) ∧
      s1.stack = s.stack ∧ s1.offset = s.offset + 1 ∧ s1.calls = s.calls ∧
      (∀ a, StackAccess.store a ∈ s1.accesses → StackAccess.store a ∈ s.accesses) ∧
      ops.value_offset = (decode_node_uchar4 o2).y ∧
      ops.color_offset = (decode_node_uchar4 o2).z := by
  refine ⟨_, _, load_run E kg o1 o2 s, rfl, rfl, rfl, fun a ha => ?_, rfl, rfl⟩
  simp only [List.mem_append, List.mem_cons, List.mem_singleton] at ha
  rcases ha with (((((ha | ha) | ha) | ha) | ha) | ha)
  · exact ha
  all_goals (first | (split at ha <;> simp_all) | simp_all)

/-- A supported dimensionality: the node is the store phase run on what the
switch returned. -/
theorem node_run_ok (E : Externals F) (kg : KernelGlobals) (dimensions o1 o2 : Nat)
    (s : KernelState F)
    (hdim : dimensions = 1 ∨ dimensions = 2 ∨ dimensions = 3 ∨ dimensions = 4)
    (ops : NoiseOperands F) (s1 : KernelState F)
    (hload : svm_node_tex_noise_load E kg o1 o2 s = (some ops, s1)) :
    ∃ r l, svm_node_tex_noise_switch E dimensions ops s1
        = (some r, { s1 with calls := s1.calls ++ l }) ∧
      svm_node_tex_noise E kg dimensions o1 o2 s
        = svm_node_tex_noise_store E ops r.1 r.2 { s1 with calls := s1.calls ++ l } := by
  obtain ⟨r, l, h⟩ := switch_frame E ops s1 dimensions hdim
  refine ⟨r, l, h, ?_⟩
  rw [node_phases, hload]
  dsimp only
  rw [h]

/-- An unsupported dimensionality: the node aborts right after the operand
phase. -/
theorem node_run_abort (E : Externals F) (kg : KernelGlobals) (dimensions o1 o2 : Nat)
    (s : KernelState F)
    (hdim : ¬ (dimensions = 1 ∨ dimensions = 2 ∨ dimensions = 3 ∨ dimensions = 4))
    (ops : NoiseOperands F) (s1 : KernelState F)
    (hload : svm_node_tex_noise_load E kg o1 o2 s = (some ops, s1)) :
    svm_node_tex_noise E kg dimensions o1 o2 s = (none, s1) := by
  simp only [not_or] at hdim
  rw [node_phases, hload]
  dsimp only
  rw [switch_abort E _ _ dimensions hdim.1 hdim.2.1 hdim.2.2.1 hdim.2.2.2]

/-- What the store phase does: it returns; the cursor and the call log are
untouched; slot `i` afterwards holds the color component stored there, else the
value stored there, else what it held before. -/
theorem store_ok (E : Externals F) (ops : NoiseOperands F) (v : F) (c : float3 F)
    (s : KernelState F) :
    ∃ s3, svm_node_tex_noise_store E ops v c s = (some (), s3) ∧
      s3.offset = s.offset ∧ s3.calls = s.calls ∧
      (∀ i, s3.stack i =
        if ops.color_offset ≠ E.SVM_STACK_INVALID ∧ i = ops.color_offset + 2 then c.z
        else if ops.color_offset ≠ E.SVM_STACK_INVALID ∧ i = ops.color_offset + 1 then c.y
        else if ops.color_offset ≠ E.SVM_STACK_INVALID ∧ i = ops.color_offset then c.x
        else if ops.value_offset ≠ E.SVM_STACK_INVALID ∧ i = ops.value_offset then v
        else s.stack i) := by
  rw [store_run]
  by_cases hc : ops.color_offset = E.SVM_STACK_INVALID <;>
    by_cases hv : ops.value_offset = E.SVM_STACK_INVALID <;>
    simp [stack_valid, hc, hv]

/-- The value `tex_noise_1d` returns depends only on the position, the detail and
the distortion. -/
theorem tex_noise_1d_value_indep (E : Externals F) (p detail distortion : F)
    (cin cin1 : Bool) (v0 v1 : F) (c0 c1 : float3 F) (s t : KernelState F) :
    (tex_noise_1d E p detail distortion cin v0 c0 s).1.map Prod.fst =
      (tex_noise_1d E p detail distortion cin1 v1 c1 t).1.map Prod.fst := by
  by_cases h : E.neq distortion (E.ofNat 0) = true <;> cases cin <;> cases cin1 <;>
    simp [tex_noise_1d, h, call_noise_1d, call_noise_turbulence_1d]

/-- The color `tex_noise_1d` returns when color is needed depends only on the
position, the detail and the distortion. -/
theorem tex_noise_1d_color_indep (E : Externals F) (p detail distortion : F)
    (v0 v1 : F) (c0 c1 : float3 F) (s t : KernelState F) :
    (tex_noise_1d E p detail distortion true v0 c0 s).1 =
      (tex_noise_1d E p detail distortion true v1 c1 t).1 := by
  by_cases h : E.neq distortion (E.ofNat 0) = true <;>
    simp [tex_noise_1d, h, call_noise_1d, call_noise_turbulence_1d]

/-- The result of `tex_noise_1d` does not depend on the state it starts from. -/
theorem tex_noise_1d_state_indep (E : Externals F) (p detail distortion : F)
    (cin : Bool) (v0 : F) (c0 : float3 F) (s t : KernelState F) :
    (tex_noise_1d E p detail distortion cin v0 c0 s).1 =
      (tex_noise_1d E p detail distortion cin v0 c0 t).1 := by
  by_cases h : E.neq distortion (E.ofNat 0) = true <;> cases cin <;>
    simp [tex_noise_1d, h, call_noise_1d, call_noise_turbulence_1d]

/-- The value `tex_noise_2d` returns depends only on the position, the detail and
the distortion. -/
theorem tex_noise_2d_value_indep (E : Externals F) (p : float2 F) (detail distortion : F)
    (cin cin1 : Bool) (v0 v1 : F) (c0 c1 : float3 F) (s t : KernelState F) :
    (tex_noise_2d E p detail distortion cin v0 c0 s).1.map Prod.fst =
      (tex_noise_2d E p detail distortion cin1 v1 c1 t).1.map Prod.fst := by
  by_cases h : E.neq distortion (E.ofNat 0) = true <;> cases cin <;> cases cin1 <;>
    simp [tex_noise_2d, h, call_noise_2d, call_noise_turbulence_2d]

/-- The color `tex_noise_2d` returns when color is needed depends only on the
position, the detail and the distortion. -/
theorem tex_noise_2d_color_indep (E : Externals F) (p : float2 F) (detail distortion : F)
    (v0 v1 : F) (c0 c1 : float3 F) (s t : KernelState F) :
    (tex_noise_2d E p detail distortion true v0 c0 s).1 =
      (tex_noise_2d E p detail distortion true v1 c1 t).1 := by
  by_cases h : E.neq distortion (E.ofNat 0) = true <;>
    simp [tex_noise_2d, h, call_noise_2d, call_noise_turbulence_2d]

/-- The result of `tex_noise_2d` does not depend on the state it starts from. -/
theorem tex_noise_2d_state_indep (E : Externals F) (p : float2 F) (detail distortion : F)
    (cin : Bool) (v0 : F) (c0 : float3 F) (s t : KernelState F) :
    (tex_noise_2d E p detail distortion cin v0 c0 s).1 =
      (tex_noise_2d E p detail distortion cin v0 c0 t).1 := by
  by_cases h : E.neq distortion (E.ofNat 0) = true <;> cases cin <;>
    simp [tex_noise_2d, h, call_noise_2d, call_noise_turbulence_2d]

/-- The value `tex_noise_3d` returns depends only on the position, the detail and
the distortion. -/
theorem tex_noise_3d_value_indep (E : Externals F) (p : float3 F) (detail distortion : F)
    (cin cin1 : Bool) (v0 v1 : F) (c0 c1 : float3 F) (s t : KernelState F) :
    (tex_noise_3d E p detail distortion cin v0 c0 s).1.map Prod.fst =
      (tex_noise_3d E p detail distortion cin1 v1 c1 t).1.map Prod.fst := by
  by_cases h : E.neq distortion (E.ofNat 0) = true <;> cases cin <;> cases cin1 <;>
    simp [tex_noise_3d, h, call_noise_3d, call_noise_turbulence_3d]

/-- The color `tex_noise_3d` returns when color is needed depends only on the
position, the detail and the distortion. -/
theorem tex_noise_3d_color_indep (E : Externals F) (p : float3 F) (detail distortion : F)
    (v0 v1 : F) (c0 c1 : float3 F) (s t : KernelState F) :
    (tex_noise_3d E p detail distortion true v0 c0 s).1 =
      (tex_noise_3d E p detail distortion true v1 c1 t).1 := by
  by_cases h : E.neq distortion (E.ofNat 0) = true <;>
    simp [tex_noise_3d, h, call_noise_3d, call_noise_turbulence_3d]

/-- The result of `tex_noise_3d` does not depend on the state it starts from. -/
theorem tex_noise_3d_state_indep (E : Externals F) (p : float3 F) (detail distortion : F)
    (cin : Bool) (v0 : F) (c0 : float3 F) (s t : KernelState F) :
    (tex_noise_3d E p detail distortion cin v0 c0 s).1 =
      (tex_noise_3d E p detail distortion cin v0 c0 t).1 := by
  by_cases h : E.neq distortion (E.ofNat 0) = true <;> cases cin <;>
    simp [tex_noise_3d, h, call_noise_3d, call_noise_turbulence_3d]

/-- The value `tex_noise_4d` returns depends only on the position, the detail and
the distortion. -/
theorem tex_noise_4d_value_indep (E : Externals F) (p : float4 F) (detail distortion : F)
    (cin cin1 : Bool) (v0 v1 : F) (c0 c1 : float3 F) (s t : KernelState F) :
    (tex_noise_4d E p detail distortion cin v0 c0 s).1.map Prod.fst =
      (tex_noise_4d E p detail distortion cin1 v1 c1 t).1.map Prod.fst := by
  by_cases h : E.neq distortion (E.ofNat 0) = true <;> cases cin <;> cases cin1 <;>
    simp [tex_noise_4d, h, call_noise_4d, call_noise_turbulence_4d]

/-- The color `tex_noise_4d` returns when color is needed depends only on the
position, the detail and the distortion. -/
theorem tex_noise_4d_color_indep (E : Externals F) (p : float4 F) (detail distortion : F)
    (v0 v1 : F) (c0 c1 : float3 F) (s t : KernelState F) :
    (tex_noise_4d E p detail distortion true v0 c0 s).1 =
      (tex_noise_4d E p detail distortion true v1 c1 t).1 := by
  by_cases h : E.neq distortion (E.ofNat 0) = true <;>
    simp [tex_noise_4d, h, call_noise_4d, call_noise_turbulence_4d]

/-- The result of `tex_noise_4d` does not depend on the state it starts from. -/
theorem tex_noise_4d_state_indep (E : Externals F) (p : float4 F) (detail distortion : F)
    (cin : Bool) (v0 : F) (c0 : float3 F) (s t : KernelState F) :
    (tex_noise_4d E p detail distortion cin v0 c0 s).1 =
      (tex_noise_4d E p detail distortion cin v0 c0 t).1 := by
  by_cases h : E.neq distortion (E.ofNat 0) = true <;> cases cin <;>
    simp [tex_noise_4d, h, call_noise_4d, call_noise_turbulence_4d]

/-- A supported dimensionality, end to end: the node returns; the call log grew by
what the switch logged; the requested output slots hold what the switch
returned; every slot holds a stored component or its old content. -/
theorem node_outputs (E : Externals F) (kg : KernelGlobals) (dimensions o1 o2 : Nat)
    (s : KernelState F)
    (hdim : dimensions = 1 ∨ dimensions = 2 ∨ dimensions = 3 ∨ dimensions = 4)
    (ops : NoiseOperands F) (s1 : KernelState F)
    (hload : svm_node_tex_noise_load E kg o1 o2 s = (some ops, s1)) :
    ∃ r l s3, svm_node_tex_noise_switch E dimensions ops s1
        = (some r, { s1 with calls := s1.calls ++ l }) ∧
      svm_node_tex_noise E kg dimensions o1 o2 s = (some (), s3) ∧
      s3.calls = s1.calls ++ l ∧
      (ops.value_offset ≠ E.SVM_STACK_INVALID →
        ¬ (ops.color_offset ≠ E.SVM_STACK_INVALID ∧
            (ops.value_offset = ops.color_offset ∨ ops.value_offset = ops.color_offset + 1 ∨
             ops.value_offset = ops.color_offset + 2)) →
        s3.stack ops.value_offset = r.1) ∧
      (ops.color_offset ≠ E.SVM_STACK_INVALID →
        (⟨s3.stack ops.color_offset, s3.stack (ops.color_offset + 1),
          s3.stack (ops.color_offset + 2)⟩ : float3 F) = r.2) ∧
      (∀ i, s3.stack i =
        if ops.color_offset ≠ E.SVM_STACK_INVALID ∧ i = ops.color_offset + 2 then r.2.z
        else if ops.color_offset ≠ E.SVM_STACK_INVALID ∧ i = ops.color_offset + 1 then r.2.y
        else if ops.color_offset ≠ E.SVM_STACK_INVALID ∧ i = ops.color_offset then r.2.x
        else if ops.value_offset ≠ E.SVM_STACK_INVALID ∧ i = ops.value_offset then r.1
        else s1.stack i) := by
  obtain ⟨r, l, hsw, hrun⟩ := node_run_ok E kg dimensions o1 o2 s hdim ops s1 hload
  obtain ⟨s3, hstore, -, hcalls, hstack⟩ :=
    store_ok E ops r.1 r.2 { s1 with calls := s1.calls ++ l }
  refine ⟨r, l, s3, hsw, hrun.trans hstore, hcalls, fun hv hnc => ?_, fun hc => ?_, hstack⟩
  · rw [hstack]
    simp only [not_and, not_or] at hnc
    by_cases hc : ops.color_offset = E.SVM_STACK_INVALID
    · simp [hc, hv]
    · obtain ⟨h0, h1, h2⟩ := hnc hc
      simp [h0, h1, h2, hv]
  · rw [hstack, hstack, hstack]
    simp [hc]

/-- Whatever the operand phase returns, its output offsets are the second and
third field of the second word, and the stack is the one it started from. -/
theorem load_offsets (E : Externals F) (kg : KernelGlobals) (o1 o2 : Nat)
    (s : KernelState F) (ops : NoiseOperands F) (s1 : KernelState F)
    (hload : svm_node_tex_noise_load E kg o1 o2 s = (some ops, s1)) :
    ops.value_offset = (decode_node_uchar4 o2).y ∧
    ops.color_offset = (decode_node_uchar4 o2).z ∧
    s1.stack = s.stack ∧ s1.calls = s.calls := by
  rw [load_run] at hload
  obtain ⟨h1, h2⟩ := Prod.mk.inj hload
  rw [← Option.some.inj h1, ← h2]
  exact ⟨rfl, rfl, rfl, rfl⟩

/-- Closed form of `tex_noise_1d` when color is not needed. -/
theorem tex_noise_1d_no_color (E : Externals F) (p detail distortion : F)
    (v0 : F) (c0 : float3 F) (s : KernelState F) :
    tex_noise_1d E p detail distortion false v0 c0 s =
      (some (E.noise_turbulence_1d
          (if E.neq distortion (E.ofNat 0) = true then
            E.add p (E.mul (E.noise_1d (E.add p (random_float_offset E (E.ofNat 0)))) distortion)
           else p) detail, c0),
       { s with calls := s.calls ++
          (if E.neq distortion (E.ofNat 0) = true then
            [NoiseCall.noise_1d (E.add p (random_float_offset E (E.ofNat 0)))] else []) ++
          [NoiseCall.noise_turbulence_1d
            (if E.neq distortion (E.ofNat 0) = true then
              E.add p (E.mul (E.noise_1d (E.add p (random_float_offset E (E.ofNat 0))))
                distortion)
             else p) detail] }) := by
  by_cases h : E.neq distortion (E.ofNat 0) = true <;>
    simp [tex_noise_1d, h, call_noise_1d, call_noise_turbulence_1d]

/-- The first primitive `tex_noise_4d` calls: the warp sample at seed 0 when
there is distortion, the turbulence at the position itself otherwise. -/
theorem tex_noise_4d_first_call (E : Externals F) (p : float4 F) (detail distortion : F)
    (cin : Bool) (v0 : F) (c0 : float3 F) (s : KernelState F) :
    ∃ r rest, tex_noise_4d E p detail distortion cin v0 c0 s =
      (some r, { s with calls := s.calls ++
        (if E.neq distortion (E.ofNat 0) = true then
          NoiseCall.noise_4d (float4.add E p (random_float4_offset E (E.ofNat 0)))
         else NoiseCall.noise_turbulence_4d p detail) :: rest }) := by
  by_cases h : E.neq distortion (E.ofNat 0) = true <;> cases cin <;>
    simp [tex_noise_4d, h, call_noise_4d, call_noise_turbulence_4d]

/-! ## The node handler -/

/-- C2: for `dimensions` in 1..4 the node returns, and the register stack after
it differs from the stack before only at slot `value_offset` (when that offset
is not the sentinel) and at slots `color_offset`, `color_offset + 1`,
`color_offset + 2` (when that offset is not the sentinel); when both output
offsets are the sentinel the stack is unchanged. -/
theorem stack_changes_only_at_outputs (E : Externals F) (kg : KernelGlobals)
    (dimensions o1 o2 : Nat) (s : KernelState F)
    (hdim : dimensions = 1 ∨ dimensions = 2 ∨ dimensions = 3 ∨ dimensions = 4) :
    ∃ s1, svm_node_tex_noise E kg dimensions o1 o2 s = (some (), s1) ∧
      (∀ i : Nat,
        ¬ ((decode_node_uchar4 o2).y ≠ E.SVM_STACK_INVALID ∧ i = (decode_node_uchar4 o2).y) →
        ¬ ((decode_node_uchar4 o2).z ≠ E.SVM_STACK_INVALID ∧
            (i = (decode_node_uchar4 o2).z ∨ i = (decode_node_uchar4 o2).z + 1 ∨
             i = (decode_node_uchar4 o2).z + 2)) →
        s1.stack i = s.stack i) ∧
      ((decode_node_uchar4 o2).y = E.SVM_STACK_INVALID →
        (decode_node_uchar4 o2).z = E.SVM_STACK_INVALID → s1.stack = s.stack) := by
  obtain ⟨ops, s1, hload, hst, -, -, -, hvo, hco⟩ := load_ok E kg o1 o2 s
  obtain ⟨r, l, -, hrun⟩ := node_run_ok E kg dimensions o1 o2 s hdim ops s1 hload
  obtain ⟨s3, hstore, -, -, hstack⟩ := store_ok E ops r.1 r.2 { s1 with calls := s1.calls ++ l }
  rw [hvo, hco] at hstack
  refine ⟨s3, hrun.trans hstore, fun i hv hc => ?_, fun hv hc => ?_⟩
  · rw [hstack i, ← hst]
    simp only [not_and, not_or] at hv hc
    by_cases hc0 : (decode_node_uchar4 o2).z = E.SVM_STACK_INVALID
    · by_cases hv0 : (decode_node_uchar4 o2).y = E.SVM_STACK_INVALID
      · simp [hc0, hv0]
      · simp [hc0, hv0, hv hv0]
    · obtain ⟨h0, h1, h2⟩ := hc hc0
      by_cases hv0 : (decode_node_uchar4 o2).y = E.SVM_STACK_INVALID
      · simp [h0, h1, h2, hv0]
      · simp [h0, h1, h2, hv hv0]
  · funext i
    rw [hstack i, ← hst]
    simp [hv, hc]


/-- Witness of C2: a 3D evaluation with `value_offset = 7` and `color_offset = 20`
on the sample state. -/
theorem stack_changes_only_at_outputs_witness :
    ((3 : Nat) = 1 ∨ (3 : Nat) = 2 ∨ (3 : Nat) = 3 ∨ (3 : Nat) = 4) ∧
    ∃ s1, svm_node_tex_noise sampleExternals sampleGlobals 3 (pack4 0 255 255 255)
        (pack4 255 7 20 0) sampleState = (some (), s1) ∧
      (∀ i : Nat,
        ¬ ((decode_node_uchar4 (pack4 255 7 20 0)).y ≠ sampleExternals.SVM_STACK_INVALID ∧
            i = (decode_node_uchar4 (pack4 255 7 20 0)).y) →
        ¬ ((decode_node_uchar4 (pack4 255 7 20 0)).z ≠ sampleExternals.SVM_STACK_INVALID ∧
            (i = (decode_node_uchar4 (pack4 255 7 20 0)).z ∨
             i = (decode_node_uchar4 (pack4 255 7 20 0)).z + 1 ∨
             i = (decode_node_uchar4 (pack4 255 7 20 0)).z + 2)) →
        s1.stack i = sampleState.stack i) ∧
      ((decode_node_uchar4 (pack4 255 7 20 0)).y = sampleExternals.SVM_STACK_INVALID →
        (decode_node_uchar4 (pack4 255 7 20 0)).z = sampleExternals.SVM_STACK_INVALID →
        s1.stack = sampleState.stack) :=
  ⟨by decide,
   stack_changes_only_at_outputs sampleExternals sampleGlobals 3 (pack4 0 255 255 255)
     (pack4 255 7 20 0) sampleState (by decide)⟩

/-- C3: each of the four scalar operands is resolved on its own: `w`, `scale`,
`detail`, `distortion` are the stack slots at `w_offset`, `scale_offset`,
`detail_offset`, `distortion_offset` when that offset is not the sentinel, and
otherwise the float reinterpretation of the `x`, `y`, `z`, `w` field of the word
at the cursor; the node then runs its switch and stores on exactly these
operands. Each formula mentions only its own offset and its own literal. -/
theorem operands_resolved_independently (E : Externals F) (kg : KernelGlobals)
    (dimensions o1 o2 : Nat) (s : KernelState F) :
    ∃ ops s1, svm_node_tex_noise_load E kg o1 o2 s = (some ops, s1) ∧
      ops.w = (if (decode_node_uchar4 o1).y = E.SVM_STACK_INVALID
        then E.uint_as_float (kg.svm_nodes s.offset).x
        else s.stack (decode_node_uchar4 o1).y) ∧
      ops.scale = (if (decode_node_uchar4 o1).z = E.SVM_STACK_INVALID
        then E.uint_as_float (kg.svm_nodes s.offset).y
        else s.stack (decode_node_uchar4 o1).z) ∧
      ops.detail = (if (decode_node_uchar4 o1).w = E.SVM_STACK_INVALID
        then E.uint_as_float (kg.svm_nodes s.offset).z
        else s.stack (decode_node_uchar4 o1).w) ∧
      ops.distortion = (if (decode_node_uchar4 o2).x = E.SVM_STACK_INVALID
        then E.uint_as_float (kg.svm_nodes s.offset).w
        else s.stack (decode_node_uchar4 o2).x) ∧
      (read_node kg s).1 = some (kg.svm_nodes s.offset) ∧
      svm_node_tex_noise E kg dimensions o1 o2 s =
        match svm_node_tex_noise_switch E dimensions ops s1 with
        | (some r, s2) => svm_node_tex_noise_store E ops r.1 r.2 s2
        | (none, s2) => (none, s2) := by
  refine ⟨_, _, load_run E kg o1 o2 s, rfl, rfl, rfl, rfl, rfl, ?_⟩
  rw [node_phases, load_run]

/-- C5: the node aborts exactly when `dimensions` is outside 1..4; in that case
the register stack is as before and no store was issued, whatever the output
offsets are. -/
theorem malformed_dimensions_abort (E : Externals F) (kg : KernelGlobals)
    (dimensions o1 o2 : Nat) (s : KernelState F) :
    ((svm_node_tex_noise E kg dimensions o1 o2 s).1 = none ↔
      ¬ (dimensions = 1 ∨ dimensions = 2 ∨ dimensions = 3 ∨ dimensions = 4)) ∧
    (¬ (dimensions = 1 ∨ dimensions = 2 ∨ dimensions = 3 ∨ dimensions = 4) →
      (svm_node_tex_noise E kg dimensions o1 o2 s).2.stack = s.stack ∧
      ∀ a, StackAccess.store a ∈ (svm_node_tex_noise E kg dimensions o1 o2 s).2.accesses →
        StackAccess.store a ∈ s.accesses) := by
  obtain ⟨ops, s1, hload, hst, -, -, hacc, -, -⟩ := load_ok E kg o1 o2 s
  refine ⟨⟨fun hnone hdim => ?_, fun h => ?_⟩, fun h => ?_⟩
  · obtain ⟨r, l, -, hrun⟩ := node_run_ok E kg dimensions o1 o2 s hdim ops s1 hload
    obtain ⟨s3, hstore, -⟩ := store_ok E ops r.1 r.2 { s1 with calls := s1.calls ++ l }
    rw [hrun, hstore] at hnone
    exact Option.noConfusion hnone
  · rw [node_run_abort E kg dimensions o1 o2 s h ops s1 hload]
  · rw [node_run_abort E kg dimensions o1 o2 s h ops s1 hload]
    exact ⟨hst, hacc⟩

/-- Witness of C5: `dimensions = 7` with valid `value_offset = 7` and
`color_offset = 20` aborts and leaves the sample stack as it was. -/
theorem malformed_dimensions_abort_witness :
    ¬ ((7 : Nat) = 1 ∨ (7 : Nat) = 2 ∨ (7 : Nat) = 3 ∨ (7 : Nat) = 4) ∧
    (svm_node_tex_noise sampleExternals sampleGlobals 7 (pack4 0 255 255 255)
        (pack4 255 7 20 0) sampleState).1 = none ∧
    (svm_node_tex_noise sampleExternals sampleGlobals 7 (pack4 0 255 255 255)
        (pack4 255 7 20 0) sampleState).2.stack = sampleState.stack :=
  ⟨by decide,
   (malformed_dimensions_abort sampleExternals sampleGlobals 7 (pack4 0 255 255 255)
      (pack4 255 7 20 0) sampleState).1.2 (by decide),
   ((malformed_dimensions_abort sampleExternals sampleGlobals 7 (pack4 0 255 255 255)
      (pack4 255 7 20 0) sampleState).2 (by decide)).1⟩

/-- C10: for `dimensions` in 1..4 the node returns with the instruction cursor
advanced by exactly one word, whatever the operand words are. -/
theorem cursor_advances_by_one (E : Externals F) (kg : KernelGlobals)
    (dimensions o1 o2 : Nat) (s : KernelState F)
    (hdim : dimensions = 1 ∨ dimensions = 2 ∨ dimensions = 3 ∨ dimensions = 4) :
    ∃ s1, svm_node_tex_noise E kg dimensions o1 o2 s = (some (), s1) ∧
      s1.offset = s.offset + 1 := by
  obtain ⟨ops, s1, hload, -, hoff, -⟩ := load_ok E kg o1 o2 s
  obtain ⟨r, l, -, hrun⟩ := node_run_ok E kg dimensions o1 o2 s hdim ops s1 hload
  obtain ⟨s3, hstore, hoff3, -⟩ := store_ok E ops r.1 r.2 { s1 with calls := s1.calls ++ l }
  exact ⟨s3, hrun.trans hstore, hoff3.trans hoff⟩

/-- Witness of C10: a 1D evaluation on the sample state moves the cursor from 40
to 41. -/
theorem cursor_advances_by_one_witness :
    ((1 : Nat) = 1 ∨ (1 : Nat) = 2 ∨ (1 : Nat) = 3 ∨ (1 : Nat) = 4) ∧
    ∃ s1, svm_node_tex_noise sampleExternals sampleGlobals 1 (pack4 0 255 255 255)
        (pack4 255 7 255 0) sampleState = (some (), s1) ∧ s1.offset = 40 + 1 :=
  ⟨by decide,
   cursor_advances_by_one sampleExternals sampleGlobals 1 (pack4 0 255 255 255)
     (pack4 255 7 255 0) sampleState (by decide)⟩


/-- C4: for each dimensionality 1 to 4 the node returns, and afterwards: if
`value_offset` is valid and does not lie inside the color slots, slot
`value_offset` holds the value `tex_noise_D` returns for the scaled position;
if `color_offset` is valid, slots `color_offset`, `+1`, `+2` hold the `x`, `y`,
`z` components of the color `tex_noise_D` returns. The scaled position is
`w*scale` (1D), `(x,y)*scale` (2D), `(x,y,z)*scale` (3D) and
`(x*scale, y*scale, z*scale, w*scale)` (4D) of the loaded operands. -/
theorem outputs_hold_evaluator_results (E : Externals F) (kg : KernelGlobals)
    (o1 o2 : Nat) (s : KernelState F) :
    ∃ ops s1, svm_node_tex_noise_load E kg o1 o2 s = (some ops, s1) ∧
      ops.value_offset = (decode_node_uchar4 o2).y ∧
      ops.color_offset = (decode_node_uchar4 o2).z ∧
      (∃ s3, svm_node_tex_noise E kg 1 o1 o2 s = (some (), s3) ∧
        ∀ (v0 : F) (c0 : float3 F) (t : KernelState F),
          (ops.value_offset ≠ E.SVM_STACK_INVALID →
            ¬ (ops.color_offset ≠ E.SVM_STACK_INVALID ∧
                (ops.value_offset = ops.color_offset ∨
                 ops.value_offset = ops.color_offset + 1 ∨
                 ops.value_offset = ops.color_offset + 2)) →
            (tex_noise_1d E (E.mul ops.w ops.scale)
              ops.detail ops.distortion (stack_valid E ops.color_offset) v0 c0 t).1.map Prod.fst
              = some (s3.stack ops.value_offset)) ∧
          (ops.color_offset ≠ E.SVM_STACK_INVALID →
            (tex_noise_1d E (E.mul ops.w ops.scale)
              ops.detail ops.distortion true v0 c0 t).1.map Prod.snd
              = some ⟨s3.stack ops.color_offset, s3.stack (ops.color_offset + 1),
                      s3.stack (ops.color_offset + 2)⟩)) ∧
      (∃ s3, svm_node_tex_noise E kg 2 o1 o2 s = (some (), s3) ∧
        ∀ (v0 : F) (c0 : float3 F) (t : KernelState F),
          (ops.value_offset ≠ E.SVM_STACK_INVALID →
            ¬ (ops.color_offset ≠ E.SVM_STACK_INVALID ∧
                (ops.value_offset = ops.color_offset ∨
                 ops.value_offset = ops.color_offset + 1 ∨
                 ops.value_offset = ops.color_offset + 2)) →
            (tex_noise_2d E ⟨E.mul ops.vector.x ops.scale, E.mul ops.vector.y ops.scale⟩
              ops.detail ops.distortion (stack_valid E ops.color_offset) v0 c0 t).1.map Prod.fst
              = some (s3.stack ops.value_offset)) ∧
          (ops.color_offset ≠ E.SVM_STACK_INVALID →
            (tex_noise_2d E ⟨E.mul ops.vector.x ops.scale, E.mul ops.vector.y ops.scale⟩
              ops.detail ops.distortion true v0 c0 t).1.map Prod.snd
              = some ⟨s3.stack ops.color_offset, s3.stack (ops.color_offset + 1),
                      s3.stack (ops.color_offset + 2)⟩)) ∧
      (∃ s3, svm_node_tex_noise E kg 3 o1 o2 s = (some (), s3) ∧
        ∀ (v0 : F) (c0 : float3 F) (t : KernelState F),
          (ops.value_offset ≠ E.SVM_STACK_INVALID →
            ¬ (ops.color_offset ≠ E.SVM_STACK_INVALID ∧
                (ops.value_offset = ops.color_offset ∨
                 ops.value_offset = ops.color_offset + 1 ∨
                 ops.value_offset = ops.color_offset + 2)) →
            (tex_noise_3d E ⟨E.mul ops.vector.x ops.scale, E.mul ops.vector.y ops.scale,
              E.mul ops.vector.z ops.scale⟩
              ops.detail ops.distortion (stack_valid E ops.color_offset) v0 c0 t).1.map Prod.fst
              = some (s3.stack ops.value_offset)) ∧
          (ops.color_offset ≠ E.SVM_STACK_INVALID →
            (tex_noise_3d E ⟨E.mul ops.vector.x ops.scale, E.mul ops.vector.y ops.scale,
              E.mul ops.vector.z ops.scale⟩
              ops.detail ops.distortion true v0 c0 t).1.map Prod.snd
              = some ⟨s3.stack ops.color_offset, s3.stack (ops.color_offset + 1),
                      s3.stack (ops.color_offset + 2)⟩)) ∧
      (∃ s3, svm_node_tex_noise E kg 4 o1 o2 s = (some (), s3) ∧
        ∀ (v0 : F) (c0 : float3 F) (t : KernelState F),
          (ops.value_offset ≠ E.SVM_STACK_INVALID →
            ¬ (ops.color_offset ≠ E.SVM_STACK_INVALID ∧
                (ops.value_offset = ops.color_offset ∨
                 ops.value_offset = ops.color_offset + 1 ∨
                 ops.value_offset = ops.color_offset + 2)) →
            (tex_noise_4d E ⟨E.mul ops.vector.x ops.scale, E.mul ops.vector.y ops.scale,
              E.mul ops.vector.z ops.scale, E.mul ops.w ops.scale⟩
              ops.detail ops.distortion (stack_valid E ops.color_offset) v0 c0 t).1.map Prod.fst
              = some (s3.stack ops.value_offset)) ∧
          (ops.color_offset ≠ E.SVM_STACK_INVALID →
            (tex_noise_4d E ⟨E.mul ops.vector.x ops.scale, E.mul ops.vector.y ops.scale,
              E.mul ops.vector.z ops.scale, E.mul ops.w ops.scale⟩
              ops.detail ops.distortion true v0 c0 t).1.map Prod.snd
              = some ⟨s3.stack ops.color_offset, s3.stack (ops.color_offset + 1),
                      s3.stack (ops.color_offset + 2)⟩)) := by
  obtain ⟨ops, s1, hload, -, -, -, -, hvo, hco⟩ := load_ok E kg o1 o2 s
  refine ⟨ops, s1, hload, hvo, hco, ?_, ?_, ?_, ?_⟩
  · obtain ⟨r, l, s3, hsw, hrun, -, hval, hcol, -⟩ :=
      node_outputs E kg 1 o1 o2 s (by decide) ops s1 hload
    rw [switch_1] at hsw
    refine ⟨s3, hrun, fun v0 c0 t => ⟨fun hv hnc => ?_, fun hc => ?_⟩⟩
    · rw [tex_noise_1d_value_indep E _ _ _ _ (stack_valid E ops.color_offset) v0
        E.uninit_float c0 E.uninit_float3 t s1, hsw, hval hv hnc]
      rfl
    · have hvalid : stack_valid E ops.color_offset = true := by simp [stack_valid, hc]
      rw [hvalid] at hsw
      rw [tex_noise_1d_color_indep E _ _ _ v0 E.uninit_float c0 E.uninit_float3 t s1, hsw,
        hcol hc]
      rfl
  · obtain ⟨r, l, s3, hsw, hrun, -, hval, hcol, -⟩ :=
      node_outputs E kg 2 o1 o2 s (by decide) ops s1 hload
    rw [switch_2] at hsw
    refine ⟨s3, hrun, fun v0 c0 t => ⟨fun hv hnc => ?_, fun hc => ?_⟩⟩
    · rw [tex_noise_2d_value_indep E _ _ _ _ (stack_valid E ops.color_offset) v0
        E.uninit_float c0 E.uninit_float3 t s1, hsw, hval hv hnc]
      rfl
    · have hvalid : stack_valid E ops.color_offset = true := by simp [stack_valid, hc]
      rw [hvalid] at hsw
      rw [tex_noise_2d_color_indep E _ _ _ v0 E.uninit_float c0 E.uninit_float3 t s1, hsw,
        hcol hc]
      rfl
  · obtain ⟨r, l, s3, hsw, hrun, -, hval, hcol, -⟩ :=
      node_outputs E kg 3 o1 o2 s (by decide) ops s1 hload
    rw [switch_3] at hsw
    refine ⟨s3, hrun, fun v0 c0 t => ⟨fun hv hnc => ?_, fun hc => ?_⟩⟩
    · rw [tex_noise_3d_value_indep E _ _ _ _ (stack_valid E ops.color_offset) v0
        E.uninit_float c0 E.uninit_float3 t s1, hsw, hval hv hnc]
      rfl
    · have hvalid : stack_valid E ops.color_offset = true := by simp [stack_valid, hc]
      rw [hvalid] at hsw
      rw [tex_noise_3d_color_indep E _ _ _ v0 E.uninit_float c0 E.uninit_float3 t s1, hsw,
        hcol hc]
      rfl
  · obtain ⟨r, l, s3, hsw, hrun, -, hval, hcol, -⟩ :=
      node_outputs E kg 4 o1 o2 s (by decide) ops s1 hload
    rw [switch_4] at hsw
    refine ⟨s3, hrun, fun v0 c0 t => ⟨fun hv hnc => ?_, fun hc => ?_⟩⟩
    · rw [tex_noise_4d_value_indep E _ _ _ _ (stack_valid E ops.color_offset) v0
        E.uninit_float c0 E.uninit_float3 t s1, hsw, hval hv hnc]
      rfl
    · have hvalid : stack_valid E ops.color_offset = true := by simp [stack_valid, hc]
      rw [hvalid] at hsw
      rw [tex_noise_4d_color_indep E _ _ _ v0 E.uninit_float c0 E.uninit_float3 t s1, hsw,
        hcol hc]
      rfl

/-- Witness of C4: the sample 3D evaluation with `value_offset = 7` and
`color_offset = 20`, position slots 0..2 holding `(10, 11, 12)`, literal scale 1,
detail 1 and distortion 0: slot 7 holds 162 and slots 20..22 hold
`(162, 11762, 14762)`. -/
theorem outputs_hold_evaluator_results_witness :
    ∃ s3, svm_node_tex_noise sampleExternals ⟨fun _ => ⟨5, 1, 1, 0⟩⟩ 3 (pack4 0 255 255 255)
        (pack4 255 7 20 0) sampleState = (some (), s3) ∧
      s3.stack 7 = 162 ∧ s3.stack 20 = 162 ∧ s3.stack 21 = 11762 ∧ s3.stack 22 = 14762 := by
  obtain ⟨ops, s1, hload, hvo, hco, -, -, ⟨s3, hrun, h⟩, -⟩ :=
    outputs_hold_evaluator_results sampleExternals ⟨fun _ => ⟨5, 1, 1, 0⟩⟩
      (pack4 0 255 255 255) (pack4 255 7 20 0) sampleState
  rw [load_run] at hload
  cases hload
  obtain ⟨hv, hc⟩ := h 0 ⟨0, 0, 0⟩ sampleState
  have hv1 := hv (by decide) (by decide)
  have hc1 := hc (by decide)
  refine ⟨s3, hrun, ?_, ?_, ?_, ?_⟩
  · exact (Option.some.inj hv1).symm
  · exact (congrArg float3.x (Option.some.inj hc1)).symm
  · exact (congrArg float3.y (Option.some.inj hc1)).symm
  · exact (congrArg float3.z (Option.some.inj hc1)).symm


/-- C8: for `dimensions = 4` the node calls `tex_noise_4d` on the coordinate
`(vector.x*scale, vector.y*scale, vector.z*scale, w*scale)`, where `w` is the
stack slot at `w_offset` or, if that offset is the sentinel, the literal of the
trailing word: the fourth coordinate is `w*scale`. The first primitive call the
node logs is made at that coordinate. -/
theorem four_dimensional_coordinate (E : Externals F) (kg : KernelGlobals)
    (o1 o2 : Nat) (s : KernelState F) :
    ∃ ops s1, svm_node_tex_noise_load E kg o1 o2 s = (some ops, s1) ∧
      ops.w = (if (decode_node_uchar4 o1).y = E.SVM_STACK_INVALID
        then E.uint_as_float (kg.svm_nodes s.offset).x
        else s.stack (decode_node_uchar4 o1).y) ∧
      svm_node_tex_noise E kg 4 o1 o2 s =
        (match tex_noise_4d E
            ⟨E.mul ops.vector.x ops.scale, E.mul ops.vector.y ops.scale,
             E.mul ops.vector.z ops.scale, E.mul ops.w ops.scale⟩
            ops.detail ops.distortion (stack_valid E ops.color_offset)
            E.uninit_float E.uninit_float3 s1 with
        | (some r, s2) => svm_node_tex_noise_store E ops r.1 r.2 s2
        | (none, s2) => (none, s2)) ∧
      ∃ s3 rest, svm_node_tex_noise E kg 4 o1 o2 s = (some (), s3) ∧
        s3.calls = s.calls ++
          (if E.neq ops.distortion (E.ofNat 0) = true then
            NoiseCall.noise_4d (float4.add E
              ⟨E.mul ops.vector.x ops.scale, E.mul ops.vector.y ops.scale,
               E.mul ops.vector.z ops.scale, E.mul ops.w ops.scale⟩
              (random_float4_offset E (E.ofNat 0)))
           else NoiseCall.noise_turbulence_4d
              ⟨E.mul ops.vector.x ops.scale, E.mul ops.vector.y ops.scale,
               E.mul ops.vector.z ops.scale, E.mul ops.w ops.scale⟩ ops.detail) :: rest := by
  obtain ⟨ops, s1, hload, -, -, hcalls, -⟩ := load_ok E kg o1 o2 s
  have hw : ops.w = (if (decode_node_uchar4 o1).y = E.SVM_STACK_INVALID
        then E.uint_as_float (kg.svm_nodes s.offset).x
        else s.stack (decode_node_uchar4 o1).y) := by
    have h := hload
    rw [load_run] at h
    rw [← Option.some.inj (Prod.mk.inj h).1]
    rfl
  have hnode : svm_node_tex_noise E kg 4 o1 o2 s =
        (match tex_noise_4d E
            ⟨E.mul ops.vector.x ops.scale, E.mul ops.vector.y ops.scale,
             E.mul ops.vector.z ops.scale, E.mul ops.w ops.scale⟩
            ops.detail ops.distortion (stack_valid E ops.color_offset)
            E.uninit_float E.uninit_float3 s1 with
        | (some r, s2) => svm_node_tex_noise_store E ops r.1 r.2 s2
        | (none, s2) => (none, s2)) := by
    rw [node_phases, hload]
    dsimp only
    rw [switch_4]
  refine ⟨ops, s1, hload, hw, hnode, ?_⟩
  obtain ⟨r, rest, hrun⟩ := tex_noise_4d_first_call E
    ⟨E.mul ops.vector.x ops.scale, E.mul ops.vector.y ops.scale,
     E.mul ops.vector.z ops.scale, E.mul ops.w ops.scale⟩
    ops.detail ops.distortion (stack_valid E ops.color_offset)
    E.uninit_float E.uninit_float3 s1
  rw [hrun] at hnode
  dsimp only at hnode
  obtain ⟨s3, hstore, -, hc3, -⟩ := store_ok E ops r.1 r.2
    { s1 with calls := s1.calls ++
        (if E.neq ops.distortion (E.ofNat 0) = true then
          NoiseCall.noise_4d (float4.add E
            ⟨E.mul ops.vector.x ops.scale, E.mul ops.vector.y ops.scale,
             E.mul ops.vector.z ops.scale, E.mul ops.w ops.scale⟩
            (random_float4_offset E (E.ofNat 0)))
         else NoiseCall.noise_turbulence_4d
            ⟨E.mul ops.vector.x ops.scale, E.mul ops.vector.y ops.scale,
             E.mul ops.vector.z ops.scale, E.mul ops.w ops.scale⟩ ops.detail) :: rest }
  refine ⟨s3, rest, hnode.trans hstore, ?_⟩
  rw [hc3, ← hcalls]


/-- Witness of C8: literal `w = 5` and literal `scale = 3`, position slots 0..2
holding `(10, 11, 12)`, no distortion, only the value requested: the one
primitive call is `noise_turbulence_4d((30, 33, 36, 15), 1)`, fourth coordinate
`5 * 3`. -/
theorem four_dimensional_coordinate_witness :
    ∃ s3, svm_node_tex_noise sampleExternals ⟨fun _ => ⟨5, 3, 1, 0⟩⟩ 4 (pack4 0 255 255 255)
        (pack4 255 7 255 0) sampleState = (some (), s3) ∧
      s3.calls.head? = some (NoiseCall.noise_turbulence_4d ⟨30, 33, 36, 15⟩ 1) := by
  obtain ⟨ops, s1, hload, -, -, s3, rest, hrun, hcalls⟩ :=
    four_dimensional_coordinate sampleExternals ⟨fun _ => ⟨5, 3, 1, 0⟩⟩
      (pack4 0 255 255 255) (pack4 255 7 255 0) sampleState
  rw [load_run] at hload
  cases hload
  refine ⟨s3, hrun, ?_⟩
  rw [hcalls]
  rfl

/-- C7: for `dimensions = 2` the node returns and its outputs are those of
`tex_noise_2d` called on the 2D coordinate `(vector.x*scale, vector.y*scale)`
with the same detail and distortion. A second invocation with the same operand
words whose loaded `vector.x`, `vector.y`, `scale`, `detail` and `distortion`
agree with the first (so `vector.z` and `w` may differ) writes the same value
and the same color. -/
theorem two_dimensional_uses_only_xy (E : Externals F) (kg kg1 : KernelGlobals)
    (o1 o2 : Nat) (s t : KernelState F) :
    ∃ ops s1 s3, svm_node_tex_noise_load E kg o1 o2 s = (some ops, s1) ∧
      svm_node_tex_noise E kg 2 o1 o2 s = (some (), s3) ∧
      ops.value_offset = (decode_node_uchar4 o2).y ∧
      ops.color_offset = (decode_node_uchar4 o2).z ∧
      (∀ (v0 : F) (c0 : float3 F) (u : KernelState F),
        (ops.value_offset ≠ E.SVM_STACK_INVALID →
          ¬ (ops.color_offset ≠ E.SVM_STACK_INVALID ∧
              (ops.value_offset = ops.color_offset ∨
               ops.value_offset = ops.color_offset + 1 ∨
               ops.value_offset = ops.color_offset + 2)) →
          (tex_noise_2d E ⟨E.mul ops.vector.x ops.scale, E.mul ops.vector.y ops.scale⟩
            ops.detail ops.distortion (stack_valid E ops.color_offset) v0 c0 u).1.map Prod.fst
            = some (s3.stack ops.value_offset)) ∧
        (ops.color_offset ≠ E.SVM_STACK_INVALID →
          (tex_noise_2d E ⟨E.mul ops.vector.x ops.scale, E.mul ops.vector.y ops.scale⟩
            ops.detail ops.distortion true v0 c0 u).1.map Prod.snd
            = some ⟨s3.stack ops.color_offset, s3.stack (ops.color_offset + 1),
                    s3.stack (ops.color_offset + 2)⟩)) ∧
      (∀ (ops1 : NoiseOperands F) (t1 : KernelState F),
        svm_node_tex_noise_load E kg1 o1 o2 t = (some ops1, t1) →
        ops1.vector.x = ops.vector.x → ops1.vector.y = ops.vector.y →
        ops1.scale = ops.scale → ops1.detail = ops.detail →
        ops1.distortion = ops.distortion →
        ∃ t3, svm_node_tex_noise E kg1 2 o1 o2 t = (some (), t3) ∧
          (ops.value_offset ≠ E.SVM_STACK_INVALID →
            t3.stack ops.value_offset = s3.stack ops.value_offset) ∧
          (ops.color_offset ≠ E.SVM_STACK_INVALID →
            t3.stack ops.color_offset = s3.stack ops.color_offset ∧
            t3.stack (ops.color_offset + 1) = s3.stack (ops.color_offset + 1) ∧
            t3.stack (ops.color_offset + 2) = s3.stack (ops.color_offset + 2))) := by
  obtain ⟨ops, s1, hload, -, -, -, -, hvo, hco⟩ := load_ok E kg o1 o2 s
  obtain ⟨r, l, s3, hsw, hrun, -, hval, hcol, hstack⟩ :=
    node_outputs E kg 2 o1 o2 s (by decide) ops s1 hload
  rw [switch_2] at hsw
  refine ⟨ops, s1, s3, hload, hrun, hvo, hco, fun v0 c0 u => ⟨fun hv hnc => ?_, fun hc => ?_⟩,
    fun ops1 t1 hload1 hx hy hsc hde hdi => ?_⟩
  · rw [tex_noise_2d_value_indep E _ _ _ _ (stack_valid E ops.color_offset) v0
      E.uninit_float c0 E.uninit_float3 u s1, hsw, hval hv hnc]
    rfl
  · have hvalid : stack_valid E ops.color_offset = true := by simp [stack_valid, hc]
    rw [hvalid] at hsw
    rw [tex_noise_2d_color_indep E _ _ _ v0 E.uninit_float c0 E.uninit_float3 u s1, hsw,
      hcol hc]
    rfl
  · obtain ⟨hvo1, hco1, -, -⟩ := load_offsets E kg1 o1 o2 t ops1 t1 hload1
    obtain ⟨r1, l1, t3, hsw1, hrun1, -, -, -, hstack1⟩ :=
      node_outputs E kg1 2 o1 o2 t (by decide) ops1 t1 hload1
    rw [switch_2, hx, hy, hsc, hde, hdi, hco1, ← hco] at hsw1
    have hr : r1 = r := by
      have h1 := congrArg Prod.fst hsw1
      have h2 := congrArg Prod.fst hsw
      rw [tex_noise_2d_state_indep E _ _ _ _ _ _ t1 s1, h2] at h1
      exact (Option.some.inj h1).symm
    rw [hvo1, hco1, ← hvo, ← hco, hr] at hstack1
    refine ⟨t3, hrun1, fun hv => ?_, fun hc => ?_⟩
    · rw [hstack, hstack1]
      simp [hv]
    · rw [hstack, hstack1, hstack, hstack1, hstack, hstack1]
      simp [hc]

/-- Witness of C7: two sample runs with `vector_offset = 0`, `w_offset = 3`; the
second stack differs from the first at slot 2 (`vector.z`) and slot 3 (`w`).
Both write the same value at slot 7 and the same color at slots 20..22. -/
theorem two_dimensional_uses_only_xy_witness :
    ∃ s3 t3,
      svm_node_tex_noise sampleExternals sampleGlobals 2 (pack4 0 3 255 255)
        (pack4 255 7 20 0) sampleState = (some (), s3) ∧
      svm_node_tex_noise sampleExternals sampleGlobals 2 (pack4 0 3 255 255)
        (pack4 255 7 20 0)
        { sampleState with stack := fun i => if i = 2 ∨ i = 3 then 99 else (i : Int) + 10 }
        = (some (), t3) ∧
      t3.stack 7 = s3.stack 7 ∧ t3.stack 20 = s3.stack 20 ∧ t3.stack 21 = s3.stack 21 ∧
      t3.stack 22 = s3.stack 22 := by
  obtain ⟨ops, s1, s3, hload, hrun, -, -, -, h⟩ :=
    two_dimensional_uses_only_xy sampleExternals sampleGlobals sampleGlobals
      (pack4 0 3 255 255) (pack4 255 7 20 0) sampleState
      { sampleState with stack := fun i => if i = 2 ∨ i = 3 then 99 else (i : Int) + 10 }
  rw [load_run] at hload
  cases hload
  obtain ⟨t3, hrun1, hv, hc⟩ := h _ _ (load_run _ _ _ _ _) rfl rfl rfl rfl rfl
  exact ⟨s3, t3, hrun, hrun1, hv (by decide), hc (by decide)⟩


/-- C9: for `dimensions = 1` with `color_offset` the sentinel and `value_offset`
valid the node returns; the only slot that may differ from before is
`value_offset`; it holds `noise_turbulence_1d(p1, detail)` where `p = w*scale`
and `p1 = p + noise_1d(p + random_float_offset(0)) * distortion` when
`distortion != 0` and `p1 = p` otherwise; the calls it logs are that warp sample
(if any) and that one turbulence evaluation, none at the color seeds. A second
invocation whose loaded `w`, `scale`, `detail`, `distortion` agree with the
first stores the same value, whatever its vector operand. -/
theorem one_dimensional_value_only (E : Externals F) (kg kg1 : KernelGlobals)
    (o1 o2 : Nat) (s t : KernelState F)
    (hco : (decode_node_uchar4 o2).z = E.SVM_STACK_INVALID)
    (hvo : (decode_node_uchar4 o2).y ≠ E.SVM_STACK_INVALID) :
    ∃ ops s1 s3, svm_node_tex_noise_load E kg o1 o2 s = (some ops, s1) ∧
      svm_node_tex_noise E kg 1 o1 o2 s = (some (), s3) ∧
      (∀ i, i ≠ (decode_node_uchar4 o2).y → s3.stack i = s.stack i) ∧
      s3.stack (decode_node_uchar4 o2).y =
        E.noise_turbulence_1d
          (if E.neq ops.distortion (E.ofNat 0) = true then
            E.add (E.mul ops.w ops.scale)
              (E.mul (E.noise_1d (E.add (E.mul ops.w ops.scale)
                (random_float_offset E (E.ofNat 0)))) ops.distortion)
           else E.mul ops.w ops.scale) ops.detail ∧
      s3.calls = s.calls ++
        (if E.neq ops.distortion (E.ofNat 0) = true then
          [NoiseCall.noise_1d (E.add (E.mul ops.w ops.scale)
            (random_float_offset E (E.ofNat 0)))] else []) ++
        [NoiseCall.noise_turbulence_1d
          (if E.neq ops.distortion (E.ofNat 0) = true then
            E.add (E.mul ops.w ops.scale)
              (E.mul (E.noise_1d (E.add (E.mul ops.w ops.scale)
                (random_float_offset E (E.ofNat 0)))) ops.distortion)
           else E.mul ops.w ops.scale) ops.detail] ∧
      (∀ (ops1 : NoiseOperands F) (t1 : KernelState F),
        svm_node_tex_noise_load E kg1 o1 o2 t = (some ops1, t1) →
        ops1.w = ops.w → ops1.scale = ops.scale → ops1.detail = ops.detail →
        ops1.distortion = ops.distortion →
        ∃ t3, svm_node_tex_noise E kg1 1 o1 o2 t = (some (), t3) ∧
          t3.stack (decode_node_uchar4 o2).y = s3.stack (decode_node_uchar4 o2).y) := by
  have main : ∀ (kg : KernelGlobals) (s : KernelState F) (ops : NoiseOperands F)
      (s1 : KernelState F), svm_node_tex_noise_load E kg o1 o2 s = (some ops, s1) →
      ∃ s3, svm_node_tex_noise E kg 1 o1 o2 s = (some (), s3) ∧
        (∀ i, i ≠ (decode_node_uchar4 o2).y → s3.stack i = s.stack i) ∧
        s3.stack (decode_node_uchar4 o2).y =
          E.noise_turbulence_1d
            (if E.neq ops.distortion (E.ofNat 0) = true then
              E.add (E.mul ops.w ops.scale)
                (E.mul (E.noise_1d (E.add (E.mul ops.w ops.scale)
                  (random_float_offset E (E.ofNat 0)))) ops.distortion)
             else E.mul ops.w ops.scale) ops.detail ∧
        s3.calls = s.calls ++
          (if E.neq ops.distortion (E.ofNat 0) = true then
            [NoiseCall.noise_1d (E.add (E.mul ops.w ops.scale)
              (random_float_offset E (E.ofNat 0)))] else []) ++
          [NoiseCall.noise_turbulence_1d
            (if E.neq ops.distortion (E.ofNat 0) = true then
              E.add (E.mul ops.w ops.scale)
                (E.mul (E.noise_1d (E.add (E.mul ops.w ops.scale)
                  (random_float_offset E (E.ofNat 0)))) ops.distortion)
             else E.mul ops.w ops.scale) ops.detail] := by
    intro kg s ops s1 hload
    obtain ⟨hvo1, hco1, hst, hcalls⟩ := load_offsets E kg o1 o2 s ops s1 hload
    have hinvalid : stack_valid E ops.color_offset = false := by
      simp [stack_valid, hco1, hco]
    obtain ⟨r, l, s3, hsw, hrun, hc3, -, -, hstack⟩ :=
      node_outputs E kg 1 o1 o2 s (by decide) ops s1 hload
    rw [switch_1, hinvalid, tex_noise_1d_no_color] at hsw
    obtain ⟨hr, hs⟩ := Prod.mk.inj hsw
    have hr1 := Option.some.inj hr
    have hl := congrArg KernelState.calls hs
    dsimp only at hl
    rw [hvo1, hco1, hco, hst] at hstack
    refine ⟨s3, hrun, fun i hi => ?_, ?_, ?_⟩
    · rw [hstack]
      simp [hi]
    · rw [hstack, ← hr1]
      simp [hvo]
    · rw [hc3, ← hl, hcalls]
  obtain ⟨ops, s1, hload, -⟩ := load_ok E kg o1 o2 s
  obtain ⟨s3, hrun, hframe, hval, hcalls⟩ := main kg s ops s1 hload
  refine ⟨ops, s1, s3, hload, hrun, hframe, hval, hcalls, fun ops1 t1 hload1 hw hsc hde hdi => ?_⟩
  obtain ⟨t3, hrun1, -, hval1, -⟩ := main kg1 t ops1 t1 hload1
  refine ⟨t3, hrun1, ?_⟩
  rw [hval1, hval, hw, hsc, hde, hdi]

/-- Witness of C9: literals `w = 5`, `scale = 1`, `detail = 1`, `distortion = 2`,
`value_offset = 7`, no color. With the sample primitives `p = 5`, the warp
sample is `noise_1d(205) = 208`, `p1 = 5 + 208 * 2 = 421` and slot 7 receives
`noise_turbulence_1d(421, 1) = 2948`; two primitive calls are logged. -/
theorem one_dimensional_value_only_witness :
    ∃ s3, svm_node_tex_noise sampleExternals sampleGlobals 1 (pack4 0 255 255 255)
        (pack4 255 7 255 0) sampleState = (some (), s3) ∧
      s3.stack 7 = 2948 ∧
      s3.calls = [NoiseCall.noise_1d 205, NoiseCall.noise_turbulence_1d 421 1] ∧
      (∀ i, i ≠ 7 → s3.stack i = (i : Int) + 10) := by
  obtain ⟨ops, s1, s3, hload, hrun, hframe, hval, hcalls, -⟩ :=
    one_dimensional_value_only sampleExternals sampleGlobals sampleGlobals
      (pack4 0 255 255 255) (pack4 255 7 255 0) sampleState sampleState
      (by decide) (by decide)
  rw [load_run] at hload
  cases hload
  exact ⟨s3, hrun, hval, hcalls, hframe⟩


/-! ## Seeds -/

/-- C12, as stated, fails: at position `(0,0,0)`, detail 2, no distortion, color
requested, the color `tex_noise_3d` returns is not `(v, c1, c2)` with `c1`, `c2`
the turbulence at `position + random_float3_offset(2)` and
`position + random_float3_offset(3)`. -/
theorem color_seeds_3d_counterexample :
    sampleExternals.neq 0 (sampleExternals.ofNat 0) = false ∧
    (tex_noise_3d sampleExternals ⟨0, 0, 0⟩ 2 0 true 0 ⟨0, 0, 0⟩ sampleState).1.map Prod.snd
      = some ⟨2, 11602, 14602⟩ ∧
    (tex_noise_3d sampleExternals ⟨0, 0, 0⟩ 2 0 true 0 ⟨0, 0, 0⟩ sampleState).1.map Prod.snd
      ≠ some ⟨sampleExternals.noise_turbulence_3d ⟨0, 0, 0⟩ 2,
          sampleExternals.noise_turbulence_3d (float3.add sampleExternals ⟨0, 0, 0⟩
            (random_float3_offset sampleExternals (sampleExternals.ofNat 2))) 2,
          sampleExternals.noise_turbulence_3d (float3.add sampleExternals ⟨0, 0, 0⟩
            (random_float3_offset sampleExternals (sampleExternals.ofNat 3))) 2⟩ := by
  decide

/-- C12, amended: for D = 3 with `distortion != 0.0f` false and color requested,
`tex_noise_3d` returns the value `v = noise_turbulence_3d(position, detail)` and
the color `(v, c1, c2)` with
`c1 = noise_turbulence_3d(position + random_float3_offset(3), detail)` and
`c2 = noise_turbulence_3d(position + random_float3_offset(4), detail)`. -/
theorem color_seeds_3d (E : Externals F) (p : float3 F) (detail distortion v0 : F)
    (c0 : float3 F) (s : KernelState F) (hd : E.neq distortion (E.ofNat 0) = false) :
    (tex_noise_3d E p detail distortion true v0 c0 s).1 =
      some (E.noise_turbulence_3d p detail,
        ⟨E.noise_turbulence_3d p detail,
         E.noise_turbulence_3d (float3.add E p (random_float3_offset E (E.ofNat 3))) detail,
         E.noise_turbulence_3d (float3.add E p (random_float3_offset E (E.ofNat 4))) detail⟩) := by
  simp [tex_noise_3d, hd, call_noise_turbulence_3d]

/-- Witness of C12 amended: position `(0,0,0)`, detail 2, distortion 0 on the
sample primitives gives value 2 and color `(2, 11602, 14602)`. -/
theorem color_seeds_3d_witness :
    sampleExternals.neq 0 (sampleExternals.ofNat 0) = false ∧
    (tex_noise_3d sampleExternals ⟨0, 0, 0⟩ 2 0 true 0 ⟨0, 0, 0⟩ sampleState).1 =
      some (2, ⟨2, 11602, 14602⟩) :=
  ⟨by decide, color_seeds_3d sampleExternals ⟨0, 0, 0⟩ 2 0 0 ⟨0, 0, 0⟩ sampleState (by decide)⟩


/-- C15: when `distortion != 0.0f` holds and color is requested, `tex_noise_D`
uses the seeds in order and never twice: it logs the warp samples
`noise_D(p + offset_D(i))` for `i = 0..D-1`, all at the unwarped `p`; with `p1`
the position `p` plus `(sample_i * distortion)` in component `i`, the value is
`noise_turbulence_D(p1, detail)` and the two further color channels are
`noise_turbulence_D(p1 + offset_D(D), detail)` and
`noise_turbulence_D(p1 + offset_D(D+1), detail)` (seeds 1,2 / 2,3 / 3,4 / 4,5). -/
theorem seeds_ordered_with_distortion_and_color (E : Externals F) (detail distortion v0 : F)
    (c0 : float3 F) (s : KernelState F) (hd : E.neq distortion (E.ofNat 0) = true) :
    (∀ p p1 : F,
      p1 = E.add p (E.mul (E.noise_1d (E.add p (random_float_offset E (E.ofNat 0)))) distortion) →
      tex_noise_1d E p detail distortion true v0 c0 s =
        (some (E.noise_turbulence_1d p1 detail,
            ⟨E.noise_turbulence_1d p1 detail,
             E.noise_turbulence_1d (E.add p1 (random_float_offset E (E.ofNat 1))) detail,
             E.noise_turbulence_1d (E.add p1 (random_float_offset E (E.ofNat 2))) detail⟩),
         { s with calls := s.calls ++
          [NoiseCall.noise_1d (E.add p (random_float_offset E (E.ofNat 0))),
           NoiseCall.noise_turbulence_1d p1 detail,
           NoiseCall.noise_turbulence_1d (E.add p1 (random_float_offset E (E.ofNat 1))) detail,
           NoiseCall.noise_turbulence_1d (E.add p1 (random_float_offset E (E.ofNat 2))) detail] })) ∧
    (∀ p p1 : float2 F,
      p1 = float2.add E p
        ⟨E.mul (E.noise_2d (float2.add E p (random_float2_offset E (E.ofNat 0)))) distortion,
          E.mul (E.noise_2d (float2.add E p (random_float2_offset E (E.ofNat 1)))) distortion⟩ →
      tex_noise_2d E p detail distortion true v0 c0 s =
        (some (E.noise_turbulence_2d p1 detail,
            ⟨E.noise_turbulence_2d p1 detail,
             E.noise_turbulence_2d (float2.add E p1 (random_float2_offset E (E.ofNat 2))) detail,
             E.noise_turbulence_2d (float2.add E p1 (random_float2_offset E (E.ofNat 3))) detail⟩),
         { s with calls := s.calls ++
          [NoiseCall.noise_2d (float2.add E p (random_float2_offset E (E.ofNat 0))),
           NoiseCall.noise_2d (float2.add E p (random_float2_offset E (E.ofNat 1))),
           NoiseCall.noise_turbulence_2d p1 detail,
           NoiseCall.noise_turbulence_2d (float2.add E p1 (random_float2_offset E (E.ofNat 2))) detail,
           NoiseCall.noise_turbulence_2d (float2.add E p1 (random_float2_offset E (E.ofNat 3))) detail] })) ∧
    (∀ p p1 : float3 F,
      p1 = float3.add E p
        ⟨E.mul (E.noise_3d (float3.add E p (random_float3_offset E (E.ofNat 0)))) distortion,
          E.mul (E.noise_3d (float3.add E p (random_float3_offset E (E.ofNat 1)))) distortion,
          E.mul (E.noise_3d (float3.add E p (random_float3_offset E (E.ofNat 2)))) distortion⟩ →
      tex_noise_3d E p detail distortion true v0 c0 s =
        (some (E.noise_turbulence_3d p1 detail,
            ⟨E.noise_turbulence_3d p1 detail,
             E.noise_turbulence_3d (float3.add E p1 (random_float3_offset E (E.ofNat 3))) detail,
             E.noise_turbulence_3d (float3.add E p1 (random_float3_offset E (E.ofNat 4))) detail⟩),
         { s with calls := s.calls ++
          [NoiseCall.noise_3d (float3.add E p (random_float3_offset E (E.ofNat 0))),
           NoiseCall.noise_3d (float3.add E p (random_float3_offset E (E.ofNat 1))),
           NoiseCall.noise_3d (float3.add E p (random_float3_offset E (E.ofNat 2))),
           NoiseCall.noise_turbulence_3d p1 detail,
           NoiseCall.noise_turbulence_3d (float3.add E p1 (random_float3_offset E (E.ofNat 3))) detail,
           NoiseCall.noise_turbulence_3d (float3.add E p1 (random_float3_offset E (E.ofNat 4))) detail] })) ∧
    (∀ p p1 : float4 F,
      p1 = float4.add E p
        ⟨E.mul (E.noise_4d (float4.add E p (random_float4_offset E (E.ofNat 0)))) distortion,
          E.mul (E.noise_4d (float4.add E p (random_float4_offset E (E.ofNat 1)))) distortion,
          E.mul (E.noise_4d (float4.add E p (random_float4_offset E (E.ofNat 2)))) distortion,
          E.mul (E.noise_4d (float4.add E p (random_float4_offset E (E.ofNat 3)))) distortion⟩ →
      tex_noise_4d E p detail distortion true v0 c0 s =
        (some (E.noise_turbulence_4d p1 detail,
            ⟨E.noise_turbulence_4d p1 detail,
             E.noise_turbulence_4d (float4.add E p1 (random_float4_offset E (E.ofNat 4))) detail,
             E.noise_turbulence_4d (float4.add E p1 (random_float4_offset E (E.ofNat 5))) detail⟩),
         { s with calls := s.calls ++
          [NoiseCall.noise_4d (float4.add E p (random_float4_offset E (E.ofNat 0))),
           NoiseCall.noise_4d (float4.add E p (random_float4_offset E (E.ofNat 1))),
           NoiseCall.noise_4d (float4.add E p (random_float4_offset E (E.ofNat 2))),
           NoiseCall.noise_4d (float4.add E p (random_float4_offset E (E.ofNat 3))),
           NoiseCall.noise_turbulence_4d p1 detail,
           NoiseCall.noise_turbulence_4d (float4.add E p1 (random_float4_offset E (E.ofNat 4))) detail,
           NoiseCall.noise_turbulence_4d (float4.add E p1 (random_float4_offset E (E.ofNat 5))) detail] })) := by
  refine ⟨fun p p1 hp => ?_, fun p p1 hp => ?_, fun p p1 hp => ?_, fun p p1 hp => ?_⟩
  · subst hp
    simp [tex_noise_1d, hd, call_noise_1d, call_noise_turbulence_1d]
  · subst hp
    simp [tex_noise_2d, hd, call_noise_2d, call_noise_turbulence_2d]
  · subst hp
    simp [tex_noise_3d, hd, call_noise_3d, call_noise_turbulence_3d]
  · subst hp
    simp [tex_noise_4d, hd, call_noise_4d, call_noise_turbulence_4d]

/-- Witness of C15: the sample 2D evaluation at `(1, 2)` with detail 1 and
distortion 2: warp samples at seeds 0 and 1, warped position `(1011, 2212)`,
color channels at seeds 2 and 3. -/
theorem seeds_ordered_with_distortion_and_color_witness :
    sampleExternals.neq 2 (sampleExternals.ofNat 0) = true ∧
    tex_noise_2d sampleExternals ⟨1, 2⟩ 1 2 true 0 ⟨0, 0, 0⟩ sampleState =
      (some (18138, ⟨18138, 24638, 27038⟩),
       { sampleState with calls :=
          [NoiseCall.noise_2d ⟨101, 202⟩, NoiseCall.noise_2d ⟨301, 402⟩,
           NoiseCall.noise_turbulence_2d ⟨1011, 2212⟩ 1,
           NoiseCall.noise_turbulence_2d ⟨1511, 2812⟩ 1,
           NoiseCall.noise_turbulence_2d ⟨1711, 3012⟩ 1] }) :=
  ⟨by decide,
   (seeds_ordered_with_distortion_and_color sampleExternals 1 2 0 ⟨0, 0, 0⟩ sampleState
      (by decide)).2.1 ⟨1, 2⟩ ⟨1011, 2212⟩ (by decide)⟩

/-- C16, as stated, fails for D = 2: at `(1, 2)` with detail 1 and distortion 2
the evaluator logs two `noise_2d` samples, not one, and neither its call log nor
its value are those of a turbulence taken at `p + n * distortion` in both
components with the single sample `n = noise_2d(p + random_float2_offset(0))`. -/
theorem single_warp_sample_counterexample :
    sampleExternals.neq 2 (sampleExternals.ofNat 0) = true ∧
    (tex_noise_2d sampleExternals ⟨1, 2⟩ 1 2 false 0 ⟨0, 0, 0⟩ sampleState).2.calls =
      [NoiseCall.noise_2d ⟨101, 202⟩, NoiseCall.noise_2d ⟨301, 402⟩,
       NoiseCall.noise_turbulence_2d ⟨1011, 2212⟩ 1] ∧
    (tex_noise_2d sampleExternals ⟨1, 2⟩ 1 2 false 0 ⟨0, 0, 0⟩ sampleState).2.calls ≠
      [NoiseCall.noise_2d (float2.add sampleExternals ⟨1, 2⟩
          (random_float2_offset sampleExternals (sampleExternals.ofNat 0))),
       NoiseCall.noise_turbulence_2d
        ⟨sampleExternals.add 1 (sampleExternals.mul (sampleExternals.noise_2d
            (float2.add sampleExternals ⟨1, 2⟩
              (random_float2_offset sampleExternals (sampleExternals.ofNat 0)))) 2),
         sampleExternals.add 2 (sampleExternals.mul (sampleExternals.noise_2d
            (float2.add sampleExternals ⟨1, 2⟩
              (random_float2_offset sampleExternals (sampleExternals.ofNat 0)))) 2)⟩ 1] ∧
    (tex_noise_2d sampleExternals ⟨1, 2⟩ 1 2 false 0 ⟨0, 0, 0⟩ sampleState).1.map Prod.fst ≠
      some (sampleExternals.noise_turbulence_2d
        ⟨sampleExternals.add 1 (sampleExternals.mul (sampleExternals.noise_2d
            (float2.add sampleExternals ⟨1, 2⟩
              (random_float2_offset sampleExternals (sampleExternals.ofNat 0)))) 2),
         sampleExternals.add 2 (sampleExternals.mul (sampleExternals.noise_2d
            (float2.add sampleExternals ⟨1, 2⟩
              (random_float2_offset sampleExternals (sampleExternals.ofNat 0)))) 2)⟩ 1) := by
  decide

/-- C16, amended: when `distortion != 0.0f` holds, `tex_noise_D` computes D
additional noise samples `n_i = noise_D(position + offset_D(i))`, `i = 0..D-1`
(one sample for D = 1), and the position used for the turbulence evaluation is
the input position with `n_i * distortion` added to component `i`. Shown with
color not needed: the call log is those D samples followed by the one
turbulence evaluation, whose result is the value. -/
theorem warp_takes_one_sample_per_component (E : Externals F) (detail distortion v0 : F)
    (c0 : float3 F) (s : KernelState F) (hd : E.neq distortion (E.ofNat 0) = true) :
    (∀ p p1 : F,
      p1 = E.add p (E.mul (E.noise_1d (E.add p (random_float_offset E (E.ofNat 0)))) distortion) →
      tex_noise_1d E p detail distortion false v0 c0 s =
        (some (E.noise_turbulence_1d p1 detail, c0),
         { s with calls := s.calls ++
          [NoiseCall.noise_1d (E.add p (random_float_offset E (E.ofNat 0))),
           NoiseCall.noise_turbulence_1d p1 detail] })) ∧
    (∀ p p1 : float2 F,
      p1 = float2.add E p
        ⟨E.mul (E.noise_2d (float2.add E p (random_float2_offset E (E.ofNat 0)))) distortion,
          E.mul (E.noise_2d (float2.add E p (random_float2_offset E (E.ofNat 1)))) distortion⟩ →
      tex_noise_2d E p detail distortion false v0 c0 s =
        (some (E.noise_turbulence_2d p1 detail, c0),
         { s with calls := s.calls ++
          [NoiseCall.noise_2d (float2.add E p (random_float2_offset E (E.ofNat 0))),
           NoiseCall.noise_2d (float2.add E p (random_float2_offset E (E.ofNat 1))),
           NoiseCall.noise_turbulence_2d p1 detail] })) ∧
    (∀ p p1 : float3 F,
      p1 = float3.add E p
        ⟨E.mul (E.noise_3d (float3.add E p (random_float3_offset E (E.ofNat 0)))) distortion,
          E.mul (E.noise_3d (float3.add E p (random_float3_offset E (E.ofNat 1)))) distortion,
          E.mul (E.noise_3d (float3.add E p (random_float3_offset E (E.ofNat 2)))) distortion⟩ →
      tex_noise_3d E p detail distortion false v0 c0 s =
        (some (E.noise_turbulence_3d p1 detail, c0),
         { s with calls := s.calls ++
          [NoiseCall.noise_3d (float3.add E p (random_float3_offset E (E.ofNat 0))),
           NoiseCall.noise_3d (float3.add E p (random_float3_offset E (E.ofNat 1))),
           NoiseCall.noise_3d (float3.add E p (random_float3_offset E (E.ofNat 2))),
           NoiseCall.noise_turbulence_3d p1 detail] })) ∧
    (∀ p p1 : float4 F,
      p1 = float4.add E p
        ⟨E.mul (E.noise_4d (float4.add E p (random_float4_offset E (E.ofNat 0)))) distortion,
          E.mul (E.noise_4d (float4.add E p (random_float4_offset E (E.ofNat 1)))) distortion,
          E.mul (E.noise_4d (float4.add E p (random_float4_offset E (E.ofNat 2)))) distortion,
          E.mul (E.noise_4d (float4.add E p (random_float4_offset E (E.ofNat 3)))) distortion⟩ →
      tex_noise_4d E p detail distortion false v0 c0 s =
        (some (E.noise_turbulence_4d p1 detail, c0),
         { s with calls := s.calls ++
          [NoiseCall.noise_4d (float4.add E p (random_float4_offset E (E.ofNat 0))),
           NoiseCall.noise_4d (float4.add E p (random_float4_offset E (E.ofNat 1))),
           NoiseCall.noise_4d (float4.add E p (random_float4_offset E (E.ofNat 2))),
           NoiseCall.noise_4d (float4.add E p (random_float4_offset E (E.ofNat 3))),
           NoiseCall.noise_turbulence_4d p1 detail] })) := by
  refine ⟨fun p p1 hp => ?_, fun p p1 hp => ?_, fun p p1 hp => ?_, fun p p1 hp => ?_⟩
  · subst hp
    simp [tex_noise_1d, hd, call_noise_1d, call_noise_turbulence_1d]
  · subst hp
    simp [tex_noise_2d, hd, call_noise_2d, call_noise_turbulence_2d]
  · subst hp
    simp [tex_noise_3d, hd, call_noise_3d, call_noise_turbulence_3d]
  · subst hp
    simp [tex_noise_4d, hd, call_noise_4d, call_noise_turbulence_4d]

/-- Witness of C16 amended: the sample 2D evaluation at `(1, 2)` with detail 1
and distortion 2 takes the two samples `noise_2d(101, 202) = 505` and
`noise_2d(301, 402) = 1105` and evaluates the turbulence at
`(1 + 505 * 2, 2 + 1105 * 2)`. -/
theorem warp_takes_one_sample_per_component_witness :
    sampleExternals.neq 2 (sampleExternals.ofNat 0) = true ∧
    tex_noise_2d sampleExternals ⟨1, 2⟩ 1 2 false 0 ⟨0, 0, 0⟩ sampleState =
      (some (18138, ⟨0, 0, 0⟩),
       { sampleState with calls :=
          [NoiseCall.noise_2d ⟨101, 202⟩, NoiseCall.noise_2d ⟨301, 402⟩,
           NoiseCall.noise_turbulence_2d ⟨1011, 2212⟩ 1] }) :=
  ⟨by decide,
   (warp_takes_one_sample_per_component sampleExternals 1 2 0 ⟨0, 0, 0⟩ sampleState
      (by decide)).2.1 ⟨1, 2⟩ ⟨1011, 2212⟩ (by decide)⟩

/-- C17, as stated, fails for D = 1: `random_float_offset` does not use the
two-argument hash. With the sample primitives and seed 0 it returns 200, while
`100 + hash_float2_to_float(0, 0) * 100`, the first component of the 2D, 3D and
4D offsets, is 100. -/
theorem offset_1d_uses_two_argument_hash_counterexample :
    random_float_offset sampleExternals 0 = 200 ∧
    random_float_offset sampleExternals 0 ≠
      sampleExternals.add (sampleExternals.ofNat 100)
        (sampleExternals.mul
          (sampleExternals.hash_float2_to_float ⟨0, sampleExternals.ofNat 0⟩)
          (sampleExternals.ofNat 100)) ∧
    random_float_offset sampleExternals 0 ≠ (random_float2_offset sampleExternals 0).x := by
  decide

/-- C17, amended: for D = 2, 3, 4 every component `i < D` of the seed offset is
`100 + hash_float2_to_float(seed, i) * 100`, so for the same seed the 2D, 3D
and 4D generators agree on every component they share; the 1D offset is
`100 + hash_float_to_float(seed) * 100`, through the one-argument hash. -/
theorem offset_components (E : Externals F) (seed : F) :
    random_float_offset E seed
      = E.add (E.ofNat 100) (E.mul (E.hash_float_to_float seed) (E.ofNat 100)) ∧
    (random_float4_offset E seed).x
      = E.add (E.ofNat 100) (E.mul (E.hash_float2_to_float ⟨seed, E.ofNat 0⟩) (E.ofNat 100)) ∧
    (random_float4_offset E seed).y
      = E.add (E.ofNat 100) (E.mul (E.hash_float2_to_float ⟨seed, E.ofNat 1⟩) (E.ofNat 100)) ∧
    (random_float4_offset E seed).z
      = E.add (E.ofNat 100) (E.mul (E.hash_float2_to_float ⟨seed, E.ofNat 2⟩) (E.ofNat 100)) ∧
    (random_float4_offset E seed).w
      = E.add (E.ofNat 100) (E.mul (E.hash_float2_to_float ⟨seed, E.ofNat 3⟩) (E.ofNat 100)) ∧
    random_float3_offset E seed
      = ⟨(random_float4_offset E seed).x, (random_float4_offset E seed).y,
         (random_float4_offset E seed).z⟩ ∧
    random_float2_offset E seed
      = ⟨(random_float4_offset E seed).x, (random_float4_offset E seed).y⟩ :=
  ⟨rfl, rfl, rfl, rfl, rfl, rfl, rfl⟩


/-! ## Stack accesses of the node -/

/-- The store phase logs no load. -/
theorem store_logs_no_load (E : Externals F) (ops : NoiseOperands F) (v : F) (c : float3 F)
    (s : KernelState F) (a : Nat)
    (h : StackAccess.load a ∈ (svm_node_tex_noise_store E ops v c s).2.accesses) :
    StackAccess.load a ∈ s.accesses := by
  rw [store_run] at h
  by_cases hc : stack_valid E ops.color_offset = true <;>
    by_cases hv : stack_valid E ops.value_offset = true <;>
    simpa [hc, hv] using h

/-- The stores the store phase logs: `value_offset` when valid and the three
color slots when `color_offset` is valid. -/
theorem store_logs_stores (E : Externals F) (ops : NoiseOperands F) (v : F) (c : float3 F)
    (s : KernelState F) (a : Nat)
    (h : StackAccess.store a ∈ (svm_node_tex_noise_store E ops v c s).2.accesses) :
    StackAccess.store a ∈ s.accesses ∨
    (ops.value_offset ≠ E.SVM_STACK_INVALID ∧ a = ops.value_offset) ∨
    (ops.color_offset ≠ E.SVM_STACK_INVALID ∧
      (a = ops.color_offset ∨ a = ops.color_offset + 1 ∨ a = ops.color_offset + 2)) := by
  rw [store_run] at h
  by_cases hc : ops.color_offset = E.SVM_STACK_INVALID <;>
    by_cases hv : ops.value_offset = E.SVM_STACK_INVALID <;>
    simp [stack_valid, hc, hv] at h ⊢ <;> tauto

/-- The loads the operand phase logs: the three vector slots, and each scalar
offset that is not the sentinel. -/
theorem load_logs_loads (E : Externals F) (kg : KernelGlobals) (o1 o2 : Nat)
    (s : KernelState F) (a : Nat)
    (h : StackAccess.load a ∈ (svm_node_tex_noise_load E kg o1 o2 s).2.accesses) :
    StackAccess.load a ∈ s.accesses ∨
    a = (decode_node_uchar4 o1).x ∨ a = (decode_node_uchar4 o1).x + 1 ∨
    a = (decode_node_uchar4 o1).x + 2 ∨
    (a = (decode_node_uchar4 o1).y ∧ (decode_node_uchar4 o1).y ≠ E.SVM_STACK_INVALID) ∨
    (a = (decode_node_uchar4 o1).z ∧ (decode_node_uchar4 o1).z ≠ E.SVM_STACK_INVALID) ∨
    (a = (decode_node_uchar4 o1).w ∧ (decode_node_uchar4 o1).w ≠ E.SVM_STACK_INVALID) ∨
    (a = (decode_node_uchar4 o2).x ∧ (decode_node_uchar4 o2).x ≠ E.SVM_STACK_INVALID) := by
  rw [load_run] at h
  simp only [decode_node_uchar4]
  by_cases h1 : o1 / 256 % 256 = E.SVM_STACK_INVALID <;>
  by_cases h2 : o1 / 65536 % 256 = E.SVM_STACK_INVALID <;>
  by_cases h3 : o1 / 16777216 % 256 = E.SVM_STACK_INVALID <;>
  by_cases h4 : o2 % 256 = E.SVM_STACK_INVALID <;>
  simp [h1, h2, h3, h4] at h ⊢ <;> tauto


/-- C13, as stated, fails for the position vector: with `vector_offset` the
sentinel (255) the node reads the stack at 255, 256 and 257, and the position
it evaluates comes from those slots. -/
theorem vector_load_has_no_fallback_counterexample :
    (decode_node_uchar4 (pack4 255 255 255 255)).x = sampleExternals.SVM_STACK_INVALID ∧
    (svm_node_tex_noise sampleExternals sampleGlobals 3 (pack4 255 255 255 255)
        (pack4 255 7 255 0) sampleState).2.accesses =
      [StackAccess.load 255, StackAccess.load 256, StackAccess.load 257,
       StackAccess.store 7] ∧
    StackAccess.load sampleExternals.SVM_STACK_INVALID ∈
      (svm_node_tex_noise sampleExternals sampleGlobals 3 (pack4 255 255 255 255)
        (pack4 255 7 255 0) sampleState).2.accesses := by
  decide

/-- C13, amended: for each of the four scalar operands (`w`, `scale`, `detail`,
`distortion`) whose decoded offset is the sentinel the node uses the literal of
the trailing word and issues no stack read for it; the position vector has no
embedded constant and is always read from slots `vector_offset`,
`vector_offset + 1`, `vector_offset + 2`. Every read the node issues is one of
these three slots or a scalar offset that is not the sentinel, so the slot with
the sentinel index is not read when none of the three vector slots has that
index. -/
theorem scalar_operands_fall_back (E : Externals F) (kg : KernelGlobals)
    (dimensions o1 o2 : Nat) (s : KernelState F)
    (hdim : dimensions = 1 ∨ dimensions = 2 ∨ dimensions = 3 ∨ dimensions = 4) :
    ∃ ops s1 s3, svm_node_tex_noise_load E kg o1 o2 s = (some ops, s1) ∧
      svm_node_tex_noise E kg dimensions o1 o2 s = (some (), s3) ∧
      ((decode_node_uchar4 o1).y = E.SVM_STACK_INVALID →
        ops.w = E.uint_as_float (kg.svm_nodes s.offset).x) ∧
      ((decode_node_uchar4 o1).z = E.SVM_STACK_INVALID →
        ops.scale = E.uint_as_float (kg.svm_nodes s.offset).y) ∧
      ((decode_node_uchar4 o1).w = E.SVM_STACK_INVALID →
        ops.detail = E.uint_as_float (kg.svm_nodes s.offset).z) ∧
      ((decode_node_uchar4 o2).x = E.SVM_STACK_INVALID →
        ops.distortion = E.uint_as_float (kg.svm_nodes s.offset).w) ∧
      ops.vector = ⟨s.stack (decode_node_uchar4 o1).x, s.stack ((decode_node_uchar4 o1).x + 1),
        s.stack ((decode_node_uchar4 o1).x + 2)⟩ ∧
      (∀ a, StackAccess.load a ∈ s3.accesses →
        StackAccess.load a ∈ s.accesses ∨
        a = (decode_node_uchar4 o1).x ∨ a = (decode_node_uchar4 o1).x + 1 ∨
        a = (decode_node_uchar4 o1).x + 2 ∨
        (a = (decode_node_uchar4 o1).y ∧ (decode_node_uchar4 o1).y ≠ E.SVM_STACK_INVALID) ∨
        (a = (decode_node_uchar4 o1).z ∧ (decode_node_uchar4 o1).z ≠ E.SVM_STACK_INVALID) ∨
        (a = (decode_node_uchar4 o1).w ∧ (decode_node_uchar4 o1).w ≠ E.SVM_STACK_INVALID) ∨
        (a = (decode_node_uchar4 o2).x ∧ (decode_node_uchar4 o2).x ≠ E.SVM_STACK_INVALID)) ∧
      ((decode_node_uchar4 o1).x ≠ E.SVM_STACK_INVALID →
        (decode_node_uchar4 o1).x + 1 ≠ E.SVM_STACK_INVALID →
        (decode_node_uchar4 o1).x + 2 ≠ E.SVM_STACK_INVALID →
        StackAccess.load E.SVM_STACK_INVALID ∈ s3.accesses →
        StackAccess.load E.SVM_STACK_INVALID ∈ s.accesses) := by
  obtain ⟨ops, s1, hload, -⟩ := load_ok E kg o1 o2 s
  obtain ⟨r, l, -, hrun⟩ := node_run_ok E kg dimensions o1 o2 s hdim ops s1 hload
  obtain ⟨s3, hstore, -⟩ := store_ok E ops r.1 r.2 { s1 with calls := s1.calls ++ l }
  have hops := hload
  rw [load_run] at hops
  have hops1 := Option.some.inj (Prod.mk.inj hops).1
  have hloads : ∀ a, StackAccess.load a ∈ s3.accesses →
      StackAccess.load a ∈ s.accesses ∨
      a = (decode_node_uchar4 o1).x ∨ a = (decode_node_uchar4 o1).x + 1 ∨
      a = (decode_node_uchar4 o1).x + 2 ∨
      (a = (decode_node_uchar4 o1).y ∧ (decode_node_uchar4 o1).y ≠ E.SVM_STACK_INVALID) ∨
      (a = (decode_node_uchar4 o1).z ∧ (decode_node_uchar4 o1).z ≠ E.SVM_STACK_INVALID) ∨
      (a = (decode_node_uchar4 o1).w ∧ (decode_node_uchar4 o1).w ≠ E.SVM_STACK_INVALID) ∨
      (a = (decode_node_uchar4 o2).x ∧ (decode_node_uchar4 o2).x ≠ E.SVM_STACK_INVALID) := by
    intro a ha
    have h3 : s3 = (svm_node_tex_noise_store E ops r.1 r.2
        { s1 with calls := s1.calls ++ l }).2 := by rw [hstore]
    rw [h3] at ha
    have ha1 : StackAccess.load a ∈ s1.accesses := by
      have h := store_logs_no_load E ops r.1 r.2 _ a ha
      exact h
    have h1 : s1 = (svm_node_tex_noise_load E kg o1 o2 s).2 := by rw [hload]
    rw [h1] at ha1
    exact load_logs_loads E kg o1 o2 s a ha1
  refine ⟨ops, s1, s3, hload, hrun.trans hstore, fun h => ?_, fun h => ?_, fun h => ?_,
    fun h => ?_, ?_, hloads, fun h0 h1 h2 ha => ?_⟩
  · rw [← hops1]; simp only [decode_node_uchar4] at h; simp [h]
  · rw [← hops1]; simp only [decode_node_uchar4] at h; simp [h]
  · rw [← hops1]; simp only [decode_node_uchar4] at h; simp [h]
  · rw [← hops1]; simp only [decode_node_uchar4] at h; simp [h]
  · rw [← hops1]; rfl
  · rcases hloads _ ha with h | h | h | h | h | h | h | h
    · exact h
    · exact absurd h.symm h0
    · exact absurd h.symm h1
    · exact absurd h.symm h2
    · exact absurd h.1.symm h.2
    · exact absurd h.1.symm h.2
    · exact absurd h.1.symm h.2
    · exact absurd h.1.symm h.2

/-- Witness of C13 amended: a 3D run with `vector_offset = 0` and all four
scalar offsets the sentinel reads slots 0, 1, 2 only. -/
theorem scalar_operands_fall_back_witness :
    ((3 : Nat) = 1 ∨ (3 : Nat) = 2 ∨ (3 : Nat) = 3 ∨ (3 : Nat) = 4) ∧
    ∃ s3, svm_node_tex_noise sampleExternals sampleGlobals 3 (pack4 0 255 255 255)
        (pack4 255 7 255 0) sampleState = (some (), s3) ∧
      (StackAccess.load 255 ∈ s3.accesses → StackAccess.load 255 ∈ sampleState.accesses) := by
  refine ⟨by decide, ?_⟩
  obtain ⟨ops, s1, s3, -, hrun, -, -, -, -, -, -, h⟩ :=
    scalar_operands_fall_back sampleExternals sampleGlobals 3 (pack4 0 255 255 255)
      (pack4 255 7 255 0) sampleState (by decide)
  exact ⟨s3, hrun, h (by decide) (by decide) (by decide)⟩

/-- C14, as stated, fails: with `color_offset = 254`, valid since the sentinel is
255, the color store writes slots 254, 255 and 256, so the slot with the
sentinel index and the one beyond it are overwritten. -/
theorem color_store_reaches_sentinel_slot_counterexample :
    (decode_node_uchar4 (pack4 255 7 254 0)).z = 254 ∧
    sampleExternals.SVM_STACK_INVALID = 255 ∧
    (svm_node_tex_noise sampleExternals sampleGlobals 3 (pack4 0 255 255 255)
        (pack4 255 7 254 0) sampleState).2.accesses =
      [StackAccess.load 0, StackAccess.load 1, StackAccess.load 2, StackAccess.store 7,
       StackAccess.store 254, StackAccess.store 255, StackAccess.store 256] ∧
    sampleState.stack 255 = 265 ∧
    (svm_node_tex_noise sampleExternals sampleGlobals 3 (pack4 0 255 255 255)
        (pack4 255 7 254 0) sampleState).2.stack 255 = 82202 ∧
    (svm_node_tex_noise sampleExternals sampleGlobals 3 (pack4 0 255 255 255)
        (pack4 255 7 254 0) sampleState).2.stack 256 = 85202 := by
  decide

/-- C14, amended: the node issues a store only for an output whose own offset is
not the sentinel; the slots it stores to are `value_offset` (if not the
sentinel) and `color_offset`, `color_offset + 1`, `color_offset + 2` (if
`color_offset` is not the sentinel). With the sentinel at 255 and 8-bit offsets,
no slot at or beyond the sentinel index is written when `color_offset` is the
sentinel or `color_offset + 2 < 255`. -/
theorem stores_only_for_valid_offsets (E : Externals F) (kg : KernelGlobals)
    (dimensions o1 o2 : Nat) (s : KernelState F)
    (hdim : dimensions = 1 ∨ dimensions = 2 ∨ dimensions = 3 ∨ dimensions = 4) :
    ∃ s3, svm_node_tex_noise E kg dimensions o1 o2 s = (some (), s3) ∧
      (∀ a, StackAccess.store a ∈ s3.accesses →
        StackAccess.store a ∈ s.accesses ∨
        ((decode_node_uchar4 o2).y ≠ E.SVM_STACK_INVALID ∧ a = (decode_node_uchar4 o2).y) ∨
        ((decode_node_uchar4 o2).z ≠ E.SVM_STACK_INVALID ∧
          (a = (decode_node_uchar4 o2).z ∨ a = (decode_node_uchar4 o2).z + 1 ∨
           a = (decode_node_uchar4 o2).z + 2))) ∧
      (E.SVM_STACK_INVALID = 255 →
        ((decode_node_uchar4 o2).z = 255 ∨ (decode_node_uchar4 o2).z + 2 < 255) →
        ∀ a, 255 ≤ a → StackAccess.store a ∈ s3.accesses →
          StackAccess.store a ∈ s.accesses) := by
  obtain ⟨ops, s1, hload, -, -, -, hacc, hvo, hco⟩ := load_ok E kg o1 o2 s
  obtain ⟨r, l, -, hrun⟩ := node_run_ok E kg dimensions o1 o2 s hdim ops s1 hload
  obtain ⟨s3, hstore, -⟩ := store_ok E ops r.1 r.2 { s1 with calls := s1.calls ++ l }
  have hstores : ∀ a, StackAccess.store a ∈ s3.accesses →
      StackAccess.store a ∈ s.accesses ∨
      ((decode_node_uchar4 o2).y ≠ E.SVM_STACK_INVALID ∧ a = (decode_node_uchar4 o2).y) ∨
      ((decode_node_uchar4 o2).z ≠ E.SVM_STACK_INVALID ∧
        (a = (decode_node_uchar4 o2).z ∨ a = (decode_node_uchar4 o2).z + 1 ∨
         a = (decode_node_uchar4 o2).z + 2)) := by
    intro a ha
    have h3 : s3 = (svm_node_tex_noise_store E ops r.1 r.2
        { s1 with calls := s1.calls ++ l }).2 := by rw [hstore]
    rw [h3] at ha
    rcases store_logs_stores E ops r.1 r.2 _ a ha with h | h | h
    · exact Or.inl (hacc a h)
    · rw [hvo] at h; exact Or.inr (Or.inl h)
    · rw [hco] at h; exact Or.inr (Or.inr h)
  refine ⟨s3, hrun.trans hstore, hstores, fun hinv hc a ha hmem => ?_⟩
  have hy : (decode_node_uchar4 o2).y < 256 := by
    simp only [decode_node_uchar4]; omega
  rcases hstores a hmem with h | h | h
  · exact h
  · rw [hinv] at h; omega
  · rw [hinv] at h; omega

/-- Witness of C14 amended: the sample 3D run with `value_offset = 7` and
`color_offset = 20` stores nothing at or beyond slot 255. -/
theorem stores_only_for_valid_offsets_witness :
    ((3 : Nat) = 1 ∨ (3 : Nat) = 2 ∨ (3 : Nat) = 3 ∨ (3 : Nat) = 4) ∧
    ∃ s3, svm_node_tex_noise sampleExternals sampleGlobals 3 (pack4 0 255 255 255)
        (pack4 255 7 20 0) sampleState = (some (), s3) ∧
      ∀ a, 255 ≤ a → StackAccess.store a ∈ s3.accesses →
        StackAccess.store a ∈ sampleState.accesses := by
  refine ⟨by decide, ?_⟩
  obtain ⟨s3, hrun, -, h⟩ :=
    stores_only_for_valid_offsets sampleExternals sampleGlobals 3 (pack4 0 255 255 255)
      (pack4 255 7 20 0) sampleState (by decide)
  exact ⟨s3, hrun, h (by decide) (by decide)⟩


/-! ## Hyperproperties of the node -/

/-- For a supported dimensionality the value the switch returns depends only on
the position operands, not on `color_offset`, `value_offset` or the state. -/
theorem switch_value_indep (E : Externals F) (dimensions : Nat)
    (hdim : dimensions = 1 ∨ dimensions = 2 ∨ dimensions = 3 ∨ dimensions = 4)
    (ops ops1 : NoiseOperands F) (s t : KernelState F)
    (hvec : ops1.vector = ops.vector) (hw : ops1.w = ops.w) (hsc : ops1.scale = ops.scale)
    (hde : ops1.detail = ops.detail) (hdi : ops1.distortion = ops.distortion) :
    (svm_node_tex_noise_switch E dimensions ops1 t).1.map Prod.fst =
      (svm_node_tex_noise_switch E dimensions ops s).1.map Prod.fst := by
  rcases hdim with h | h | h | h <;> subst h
  · rw [switch_1, switch_1, hw, hsc, hde, hdi]
    exact tex_noise_1d_value_indep E _ _ _ _ _ _ _ _ _ _ _
  · rw [switch_2, switch_2, hvec, hsc, hde, hdi]
    exact tex_noise_2d_value_indep E _ _ _ _ _ _ _ _ _ _ _
  · rw [switch_3, switch_3, hvec, hsc, hde, hdi]
    exact tex_noise_3d_value_indep E _ _ _ _ _ _ _ _ _ _ _
  · rw [switch_4, switch_4, hvec, hw, hsc, hde, hdi]
    exact tex_noise_4d_value_indep E _ _ _ _ _ _ _ _ _ _ _

/-- C18: the eighth packed field, bits 24-31 of `offsets2`, is not used: two
invocations whose second words agree on bits 0-23 produce the same outcome, the
same register stack, cursor and logs; and for a supported dimensionality the
node returns whatever that field holds. -/
theorem eighth_field_unused (E : Externals F) (kg : KernelGlobals)
    (dimensions o1 o2 o2b : Nat) (s : KernelState F)
    (hlow : o2 % 16777216 = o2b % 16777216) :
    svm_node_tex_noise E kg dimensions o1 o2 s = svm_node_tex_noise E kg dimensions o1 o2b s ∧
    ((dimensions = 1 ∨ dimensions = 2 ∨ dimensions = 3 ∨ dimensions = 4) →
      ∃ s3, svm_node_tex_noise E kg dimensions o1 o2 s = (some (), s3) ∧
        svm_node_tex_noise E kg dimensions o1 o2b s = (some (), s3)) := by
  have hx : o2 % 256 = o2b % 256 := by omega
  have hy : o2 / 256 % 256 = o2b / 256 % 256 := by omega
  have hz : o2 / 65536 % 256 = o2b / 65536 % 256 := by omega
  have hl : svm_node_tex_noise_load E kg o1 o2 s = svm_node_tex_noise_load E kg o1 o2b s := by
    rw [load_run, load_run, hx, hy, hz]
  have heq : svm_node_tex_noise E kg dimensions o1 o2 s
      = svm_node_tex_noise E kg dimensions o1 o2b s := by
    rw [node_phases, node_phases, hl]
  refine ⟨heq, fun hdim => ?_⟩
  obtain ⟨ops, s1, hload, -⟩ := load_ok E kg o1 o2 s
  obtain ⟨r, l, -, hrun⟩ := node_run_ok E kg dimensions o1 o2 s hdim ops s1 hload
  obtain ⟨s3, hstore, -⟩ := store_ok E ops r.1 r.2 { s1 with calls := s1.calls ++ l }
  exact ⟨s3, hrun.trans hstore, heq ▸ hrun.trans hstore⟩

/-- Witness of C18: the sample 3D run with the eighth field 0 and with the
eighth field 99 give the same outcome. -/
theorem eighth_field_unused_witness :
    pack4 255 7 20 0 % 16777216 = pack4 255 7 20 99 % 16777216 ∧
    svm_node_tex_noise sampleExternals sampleGlobals 3 (pack4 0 255 255 255)
        (pack4 255 7 20 0) sampleState =
      svm_node_tex_noise sampleExternals sampleGlobals 3 (pack4 0 255 255 255)
        (pack4 255 7 20 99) sampleState :=
  ⟨by decide,
   (eighth_field_unused sampleExternals sampleGlobals 3 (pack4 0 255 255 255)
      (pack4 255 7 20 0) (pack4 255 7 20 99) sampleState (by decide)).1⟩

/-- C19: requesting color never changes the scalar result. Each evaluator
returns the same value with `color_is_needed` true and false; and two
invocations of the node on the same state whose second words agree on
`distortion_offset` and on a valid `value_offset`, one without color and one
with a valid `color_offset` whose three slots do not contain `value_offset`,
leave the same value in slot `value_offset`. -/
theorem color_request_keeps_value (E : Externals F) (detail distortion v0 : F)
    (c0 : float3 F) (s : KernelState F) :
    (∀ p : F, ∃ v c cb,
      (tex_noise_1d E p detail distortion true v0 c0 s).1 = some (v, c) ∧
      (tex_noise_1d E p detail distortion false v0 c0 s).1 = some (v, cb)) ∧
    (∀ p : float2 F, ∃ v c cb,
      (tex_noise_2d E p detail distortion true v0 c0 s).1 = some (v, c) ∧
      (tex_noise_2d E p detail distortion false v0 c0 s).1 = some (v, cb)) ∧
    (∀ p : float3 F, ∃ v c cb,
      (tex_noise_3d E p detail distortion true v0 c0 s).1 = some (v, c) ∧
      (tex_noise_3d E p detail distortion false v0 c0 s).1 = some (v, cb)) ∧
    (∀ p : float4 F, ∃ v c cb,
      (tex_noise_4d E p detail distortion true v0 c0 s).1 = some (v, c) ∧
      (tex_noise_4d E p detail distortion false v0 c0 s).1 = some (v, cb)) ∧
    (∀ (kg : KernelGlobals) (dimensions o1 o2 o2b : Nat),
      (dimensions = 1 ∨ dimensions = 2 ∨ dimensions = 3 ∨ dimensions = 4) →
      (decode_node_uchar4 o2).x = (decode_node_uchar4 o2b).x →
      (decode_node_uchar4 o2).y = (decode_node_uchar4 o2b).y →
      (decode_node_uchar4 o2).y ≠ E.SVM_STACK_INVALID →
      (decode_node_uchar4 o2).z = E.SVM_STACK_INVALID →
      (decode_node_uchar4 o2b).z ≠ E.SVM_STACK_INVALID →
      ¬ ((decode_node_uchar4 o2).y = (decode_node_uchar4 o2b).z ∨
         (decode_node_uchar4 o2).y = (decode_node_uchar4 o2b).z + 1 ∨
         (decode_node_uchar4 o2).y = (decode_node_uchar4 o2b).z + 2) →
      ∃ s3 s3b, svm_node_tex_noise E kg dimensions o1 o2 s = (some (), s3) ∧
        svm_node_tex_noise E kg dimensions o1 o2b s = (some (), s3b) ∧
        s3b.stack (decode_node_uchar4 o2).y = s3.stack (decode_node_uchar4 o2).y) := by
  refine ⟨fun p => ?_, fun p => ?_, fun p => ?_, fun p => ?_,
    fun kg dimensions o1 o2 o2b hdim hx hy hv hc hcb hnc => ?_⟩
  · by_cases h : E.neq distortion (E.ofNat 0) = true <;>
      simp [tex_noise_1d, h, call_noise_1d, call_noise_turbulence_1d]
  · by_cases h : E.neq distortion (E.ofNat 0) = true <;>
      simp [tex_noise_2d, h, call_noise_2d, call_noise_turbulence_2d]
  · by_cases h : E.neq distortion (E.ofNat 0) = true <;>
      simp [tex_noise_3d, h, call_noise_3d, call_noise_turbulence_3d]
  · by_cases h : E.neq distortion (E.ofNat 0) = true <;>
      simp [tex_noise_4d, h, call_noise_4d, call_noise_turbulence_4d]
  · obtain ⟨ops, s1, hload, -, -, -, -, hvo, hco⟩ := load_ok E kg o1 o2 s
    obtain ⟨opsb, s1b, hloadb, -, -, -, -, hvob, hcob⟩ := load_ok E kg o1 o2b s
    obtain ⟨r, l, s3, hsw, hrun, -, hval, -, -⟩ :=
      node_outputs E kg dimensions o1 o2 s hdim ops s1 hload
    obtain ⟨rb, lb, s3b, hswb, hrunb, -, hvalb, -, -⟩ :=
      node_outputs E kg dimensions o1 o2b s hdim opsb s1b hloadb
    have hops := hload
    have hopsb := hloadb
    rw [load_run] at hops hopsb
    have e := Option.some.inj (Prod.mk.inj hops).1
    have eb := Option.some.inj (Prod.mk.inj hopsb).1
    simp only [decode_node_uchar4] at hx
    have hr : rb.1 = r.1 := by
      have h := switch_value_indep E dimensions hdim ops opsb s1 s1b
        (by rw [← e, ← eb]) (by rw [← e, ← eb]) (by rw [← e, ← eb]) (by rw [← e, ← eb])
        (by rw [← e, ← eb, hx])
      rw [hsw, hswb] at h
      exact Option.some.inj h
    refine ⟨s3, s3b, hrun, hrunb, ?_⟩
    have h1 : s3.stack (decode_node_uchar4 o2).y = r.1 := by
      rw [← hvo]
      exact hval (by rw [hvo]; exact hv) (by rw [hco]; exact fun h => h.1 hc)
    have h2 : s3b.stack (decode_node_uchar4 o2).y = rb.1 := by
      rw [hy, ← hvob]
      exact hvalb (by rw [hvob, ← hy]; exact hv)
        (by rw [hvob, hcob, ← hy]; exact fun h => hnc h.2)
    rw [h1, h2, hr]

/-- Witness of C19: the sample 3D run stores 70602 at slot 7 both without color
and with `color_offset = 20`. -/
theorem color_request_keeps_value_witness :
    ∃ s3 s3b,
      svm_node_tex_noise sampleExternals sampleGlobals 3 (pack4 0 255 255 255)
        (pack4 255 7 255 0) sampleState = (some (), s3) ∧
      svm_node_tex_noise sampleExternals sampleGlobals 3 (pack4 0 255 255 255)
        (pack4 255 7 20 0) sampleState = (some (), s3b) ∧
      s3b.stack 7 = s3.stack 7 :=
  (color_request_keeps_value sampleExternals 0 0 0 ⟨0, 0, 0⟩ sampleState).2.2.2.2
    sampleGlobals 3 (pack4 0 255 255 255) (pack4 255 7 255 0) (pack4 255 7 20 0)
    (by decide) (by decide) (by decide) (by decide) (by decide) (by decide) (by decide)

/-! ## Range of the seed offsets -/

/-- The bit length of zero is zero. -/
theorem bit_length_zero (fuel : Nat) : bit_length fuel 0 = 0 := by
  cases fuel <;> simp [bit_length]

/-- With enough fuel, `bit_length` is the position of the leading bit. -/
theorem bit_length_spec : ∀ (fuel n : Nat), n ≤ fuel → 0 < n →
    2 ^ (bit_length fuel n - 1) ≤ n ∧ n < 2 ^ bit_length fuel n := by
  intro fuel
  induction fuel with
  | zero => intro n h1 h2; omega
  | succ fuel ih =>
    intro n hn hpos
    have hne : n ≠ 0 := by omega
    simp only [bit_length, hne, if_false]
    by_cases h2 : n / 2 = 0
    · have h1 : n = 1 := by omega
      subst h1
      simp [bit_length_zero]
    · obtain ⟨hlo, hhi⟩ := ih (n / 2) (by omega) (by omega)
      have hL : 1 ≤ bit_length fuel (n / 2) := by
        by_contra hc
        have h0 : bit_length fuel (n / 2) = 0 := by omega
        rw [h0] at hhi
        simp at hhi
        exact h2 hhi
      have hp : 2 ^ bit_length fuel (n / 2) = 2 * 2 ^ (bit_length fuel (n / 2) - 1) := by
        rw [← pow_succ']
        congr 1
        omega
      constructor
      · simp only [Nat.add_sub_cancel]
        rw [hp]
        omega
      · rw [pow_succ]
        omega

/-- What rounding to 24 bits returns on a long significand: the quotient or its
successor by a power of two between `2^23` and `2^24`. -/
theorem round24_cases (x : Dyadic) (hx : 2 ^ 24 ≤ x.sig) :
    ∃ sh q1 : Nat, 1 ≤ sh ∧ 2 ^ (23 + sh) ≤ x.sig ∧ 2 ^ 23 ≤ q1 ∧
      Dyadic.round24 x = ⟨q1, x.exp + sh⟩ ∧
      (q1 * 2 ^ sh ≤ x.sig ∨ (x.sig < q1 * 2 ^ sh ∧ (q1 - 1) * 2 ^ sh < x.sig)) ∧
      x.sig < (q1 + 1) * 2 ^ sh := by
  have hpos : 0 < x.sig := lt_of_lt_of_le (by norm_num) hx
  obtain ⟨hlo, hhi⟩ := bit_length_spec x.sig x.sig le_rfl hpos
  have hL : 25 ≤ bit_length x.sig x.sig := by
    by_contra hc
    have : bit_length x.sig x.sig ≤ 24 := by omega
    have h2 : 2 ^ bit_length x.sig x.sig ≤ 2 ^ 24 := Nat.pow_le_pow_right (by norm_num) this
    omega
  have hsh : 23 + (bit_length x.sig x.sig - 24) = bit_length x.sig x.sig - 1 := by omega
  have hsh1 : 24 + (bit_length x.sig x.sig - 24) = bit_length x.sig x.sig := by omega
  have hdm := Nat.div_add_mod x.sig (2 ^ (bit_length x.sig x.sig - 24))
  have hmod := Nat.mod_lt x.sig (Nat.two_pow_pos (bit_length x.sig x.sig - 24))
  have hpow : (0 : Nat) < 2 ^ (bit_length x.sig x.sig - 24) := Nat.two_pow_pos _
  have hq_lo : 2 ^ 23 ≤ x.sig / 2 ^ (bit_length x.sig x.sig - 24) := by
    rw [Nat.le_div_iff_mul_le hpow, ← pow_add, hsh]
    exact hlo
  have hnot : ¬ x.sig < 2 ^ 24 := by omega
  simp only [Dyadic.round24, hnot, if_false]
  split
  · rename_i hup
    refine ⟨_, _, by omega, by rw [hsh]; exact hlo, by omega, rfl, Or.inr ⟨?_, ?_⟩, ?_⟩
    · rw [add_mul, one_mul]
      nlinarith [hdm, hmod, mul_comm (2 ^ (bit_length x.sig x.sig - 24)) (x.sig / 2 ^ (bit_length x.sig x.sig - 24))]
    · simp only [Nat.add_sub_cancel]
      have hr : 0 < x.sig % 2 ^ (bit_length x.sig x.sig - 24) := by
        rcases hup with h | h
        · exact lt_of_le_of_lt (Nat.zero_le _) h
        · rw [h.1]; exact Nat.two_pow_pos _
      nlinarith [hdm, hr, mul_comm (2 ^ (bit_length x.sig x.sig - 24)) (x.sig / 2 ^ (bit_length x.sig x.sig - 24))]
    · rw [add_mul, add_mul, one_mul]
      nlinarith [hdm, hmod, mul_comm (2 ^ (bit_length x.sig x.sig - 24)) (x.sig / 2 ^ (bit_length x.sig x.sig - 24))]
  · refine ⟨_, _, by omega, by rw [hsh]; exact hlo, hq_lo, rfl, Or.inl ?_, ?_⟩
    · exact Nat.div_mul_le_self _ _
    · rw [add_mul, one_mul]
      nlinarith [hdm, hmod, mul_comm (2 ^ (bit_length x.sig x.sig - 24)) (x.sig / 2 ^ (bit_length x.sig x.sig - 24))]


/-- Rounding to 24 bits never crosses a number that has a 24-bit significand
and exponent 0: it keeps every bound `b < 2^24`. -/
theorem round24_bounds (x : Dyadic) (b : Nat) (hb : b < 2 ^ 24) :
    (x.val ≤ b → (Dyadic.round24 x).val ≤ b) ∧
    ((b : ℚ) ≤ x.val → (b : ℚ) ≤ (Dyadic.round24 x).val) := by
  by_cases hx : x.sig < 2 ^ 24
  · have h : Dyadic.round24 x = x := by
      unfold Dyadic.round24
      rw [if_pos hx]
    rw [h]
    exact ⟨id, id⟩
  · obtain ⟨sh, q1, hsh, hlo, hq, hr, hcase, hlt⟩ := round24_cases x (by omega)
    rw [hr]
    simp only [Dyadic.val]
    rcases le_or_lt (x.exp + sh) 0 with hneg | hpos
    · obtain ⟨t, ht⟩ : ∃ t : Nat, x.exp + sh = -(t : Int) :=
        ⟨(-(x.exp + sh)).toNat, by omega⟩
      have hexp : x.exp = -((t + sh : Nat) : Int) := by push_cast; omega
      have hT : (0 : ℚ) < 2 ^ t := by positivity
      have hTS : (0 : ℚ) < 2 ^ (t + sh) := by positivity
      rw [ht, hexp, zpow_neg, zpow_neg, zpow_natCast, zpow_natCast,
        ← div_eq_mul_inv, ← div_eq_mul_inv, div_le_iff₀ hTS, div_le_iff₀ hT, le_div_iff₀ hTS,
        le_div_iff₀ hT]
      constructor
      · intro h
        have h1 : x.sig ≤ b * 2 ^ (t + sh) := by exact_mod_cast h
        have h2 : q1 ≤ b * 2 ^ t := by
          rw [pow_add, ← mul_assoc] at h1
          rcases hcase with hc | hc
          · exact Nat.le_of_mul_le_mul_right (le_trans hc h1) (Nat.two_pow_pos sh)
          · have h3 : (q1 - 1) * 2 ^ sh < b * 2 ^ t * 2 ^ sh := lt_of_lt_of_le hc.2 h1
            have h4 := Nat.lt_of_mul_lt_mul_right h3
            omega
        exact_mod_cast h2
      · intro h
        have h1 : b * 2 ^ (t + sh) ≤ x.sig := by exact_mod_cast h
        have h2 : b * 2 ^ t ≤ q1 := by
          rw [pow_add, ← mul_assoc] at h1
          have h3 : b * 2 ^ t * 2 ^ sh < (q1 + 1) * 2 ^ sh := lt_of_le_of_lt h1 hlt
          have h4 := Nat.lt_of_mul_lt_mul_right h3
          omega
        exact_mod_cast h2
    · obtain ⟨t, ht⟩ : ∃ t : Nat, x.exp + sh = ((t + 1 : Nat) : Int) :=
        ⟨(x.exp + sh - 1).toNat, by omega⟩
      have hb1 : (b : ℚ) < 2 ^ 24 := by exact_mod_cast hb
      have hbig : (2 : ℚ) ^ 24 ≤ (q1 : ℚ) * 2 ^ (x.exp + (sh : Int)) := by
        rw [ht, zpow_natCast]
        have h1 : (2 : ℚ) ^ 23 ≤ q1 := by exact_mod_cast hq
        have h2 : (2 : ℚ) ≤ 2 ^ (t + 1) := by
          have : (1 : ℚ) ≤ 2 ^ t := one_le_pow₀ (by norm_num)
          rw [pow_succ]; linarith
        calc (2 : ℚ) ^ 24 = (2 : ℚ) ^ 23 * 2 := by norm_num
          _ ≤ (q1 : ℚ) * 2 ^ (t + 1) := mul_le_mul h1 h2 (by norm_num) (by positivity)
      have hbig2 : (2 : ℚ) ^ 24 ≤ (x.sig : ℚ) * 2 ^ x.exp := by
        have h1 : ((2 : ℚ) ^ (23 + sh)) ≤ x.sig := by exact_mod_cast hlo
        have h2 : (2 : ℚ) ^ x.exp = 2 ^ (t + 1) / 2 ^ sh := by
          have : x.exp = ((t + 1 : Nat) : Int) - (sh : Int) := by omega
          rw [this, zpow_sub₀ (by norm_num), zpow_natCast, zpow_natCast]
        rw [h2]
        have hP : (0 : ℚ) < 2 ^ sh := by positivity
        rw [mul_div_assoc', le_div_iff₀ hP]
        have h3 : (2 : ℚ) ≤ 2 ^ (t + 1) := by
          have : (1 : ℚ) ≤ 2 ^ t := one_le_pow₀ (by norm_num)
          rw [pow_succ]; linarith
        calc (2 : ℚ) ^ 24 * 2 ^ sh = (2 : ℚ) ^ (23 + sh) * 2 := by rw [pow_add]; ring
          _ ≤ (x.sig : ℚ) * 2 ^ (t + 1) := mul_le_mul h1 h3 (by norm_num) (by positivity)
      constructor
      · intro h; linarith
      · intro _; linarith

/-- A dyadic is never negative. -/
theorem Dyadic.val_nonneg (x : Dyadic) : 0 ≤ x.val := by
  unfold Dyadic.val
  positivity

/-- The sum formed inside `Dyadic.add`, before rounding, is exact. -/
theorem Dyadic.val_aligned_sum (a b : Dyadic) (e : Int) (ha : e ≤ a.exp) (hb : e ≤ b.exp) :
    Dyadic.val ⟨a.sig * 2 ^ (a.exp - e).toNat + b.sig * 2 ^ (b.exp - e).toNat, e⟩
      = a.val + b.val := by
  have h2 : (2 : ℚ) ≠ 0 := by norm_num
  have hx : ∀ x : Int, e ≤ x → ((2 : ℚ) ^ (x - e).toNat) * 2 ^ e = 2 ^ x := by
    intro x hx
    rw [← zpow_natCast, ← zpow_add₀ h2]
    congr 1
    omega
  simp only [Dyadic.val]
  push_cast
  rw [add_mul, mul_assoc, mul_assoc, hx a.exp ha, hx b.exp hb]

/-- Single-precision bound of one offset component: for a hash value below 1,
`100.0f + hash * 100.0f` lies in `[100, 200]`. -/
theorem rounded_component_bounds (h1 : Dyadic → Dyadic) (h2 : float2 Dyadic → Dyadic)
    (h : Dyadic) (hh : h.val < 1) :
    100 ≤ ((roundedExternals h1 h2).add ((roundedExternals h1 h2).ofNat 100)
      ((roundedExternals h1 h2).mul h ((roundedExternals h1 h2).ofNat 100))).val ∧
    ((roundedExternals h1 h2).add ((roundedExternals h1 h2).ofNat 100)
      ((roundedExternals h1 h2).mul h ((roundedExternals h1 h2).ofNat 100))).val ≤ 200 := by
  have h100 : (roundedExternals h1 h2).ofNat 100 = ⟨100, 0⟩ := rfl
  rw [h100]
  show 100 ≤ (Dyadic.add ⟨100, 0⟩ (Dyadic.mul h ⟨100, 0⟩)).val ∧
    (Dyadic.add ⟨100, 0⟩ (Dyadic.mul h ⟨100, 0⟩)).val ≤ 200
  have hprod : Dyadic.val ⟨h.sig * 100, h.exp + 0⟩ ≤ ((100 : Nat) : ℚ) := by
    have : Dyadic.val ⟨h.sig * 100, h.exp + 0⟩ = h.val * 100 := by
      simp only [Dyadic.val, add_zero]
      push_cast
      ring
    rw [this]
    push_cast
    linarith
  have hy : (Dyadic.mul h ⟨100, 0⟩).val ≤ 100 := by
    have := (round24_bounds ⟨h.sig * 100, h.exp + 0⟩ 100 (by norm_num)).1 hprod
    exact_mod_cast this
  have hy0 := Dyadic.val_nonneg (Dyadic.mul h ⟨100, 0⟩)
  have hsum : ∀ e : Int, e ≤ 0 → e ≤ (Dyadic.mul h ⟨100, 0⟩).exp →
      Dyadic.val ⟨100 * 2 ^ ((0 : Int) - e).toNat
        + (Dyadic.mul h ⟨100, 0⟩).sig * 2 ^ ((Dyadic.mul h ⟨100, 0⟩).exp - e).toNat, e⟩
        = 100 + (Dyadic.mul h ⟨100, 0⟩).val := by
    intro e he1 he2
    have := Dyadic.val_aligned_sum ⟨100, 0⟩ (Dyadic.mul h ⟨100, 0⟩) e he1 he2
    simpa [Dyadic.val] using this
  unfold Dyadic.add
  simp only []
  split
  · rename_i hle
    have hs := hsum 0 le_rfl hle
    have hb := round24_bounds ⟨100 * 2 ^ ((0 : Int) - 0).toNat
        + (Dyadic.mul h ⟨100, 0⟩).sig * 2 ^ ((Dyadic.mul h ⟨100, 0⟩).exp - 0).toNat, 0⟩
    constructor
    · have := (hb 100 (by norm_num)).2 (by rw [hs]; push_cast; linarith)
      exact_mod_cast this
    · have := (hb 200 (by norm_num)).1 (by rw [hs]; push_cast; linarith)
      exact_mod_cast this
  · rename_i hle
    have hle1 : (Dyadic.mul h ⟨100, 0⟩).exp ≤ 0 := by
      have : ¬ (0 : Int) ≤ (Dyadic.mul h ⟨100, 0⟩).exp := hle
      omega
    have hs := hsum (Dyadic.mul h ⟨100, 0⟩).exp hle1 le_rfl
    have hb := round24_bounds ⟨100 * 2 ^ ((0 : Int) - (Dyadic.mul h ⟨100, 0⟩).exp).toNat
        + (Dyadic.mul h ⟨100, 0⟩).sig
          * 2 ^ ((Dyadic.mul h ⟨100, 0⟩).exp - (Dyadic.mul h ⟨100, 0⟩).exp).toNat,
        (Dyadic.mul h ⟨100, 0⟩).exp⟩
    constructor
    · have := (hb 100 (by norm_num)).2 (by rw [hs]; push_cast; linarith)
      exact_mod_cast this
    · have := (hb 200 (by norm_num)).1 (by rw [hs]; push_cast; linarith)
      exact_mod_cast this


/-- C11, as stated, fails in single precision: with both hash primitives
returning `16777215 * 2^-24`, the largest binary32 value below 1, the product
`hash * 100` rounds to `100 - 2^-17` and the sum `100 + hash * 100` rounds to
exactly 200, so the component of every offset generator is 200 and does not lie
in the half-open range `[100, 200)`. -/
theorem offsets_below_200_counterexample :
    (0 ≤ Dyadic.val ⟨16777215, -24⟩ ∧ Dyadic.val ⟨16777215, -24⟩ < 1) ∧
    Dyadic.mul ⟨16777215, -24⟩ ⟨100, 0⟩ = ⟨13107199, -17⟩ ∧
    random_float_offset
      (roundedExternals (fun _ => ⟨16777215, -24⟩) (fun _ => ⟨16777215, -24⟩)) ⟨0, 0⟩
      = ⟨13107200, -16⟩ ∧
    (random_float2_offset
      (roundedExternals (fun _ => ⟨16777215, -24⟩) (fun _ => ⟨16777215, -24⟩)) ⟨0, 0⟩).y
      = ⟨13107200, -16⟩ ∧
    (random_float3_offset
      (roundedExternals (fun _ => ⟨16777215, -24⟩) (fun _ => ⟨16777215, -24⟩)) ⟨0, 0⟩).z
      = ⟨13107200, -16⟩ ∧
    (random_float4_offset
      (roundedExternals (fun _ => ⟨16777215, -24⟩) (fun _ => ⟨16777215, -24⟩)) ⟨0, 0⟩).w
      = ⟨13107200, -16⟩ ∧
    Dyadic.val ⟨13107200, -16⟩ = 200 ∧
    ¬ Dyadic.val (random_float_offset
      (roundedExternals (fun _ => ⟨16777215, -24⟩) (fun _ => ⟨16777215, -24⟩)) ⟨0, 0⟩)
      < 200 := by
  have h1 : random_float_offset
      (roundedExternals (fun _ => ⟨16777215, -24⟩) (fun _ => ⟨16777215, -24⟩)) ⟨0, 0⟩
      = ⟨13107200, -16⟩ := by decide
  refine ⟨by norm_num [Dyadic.val], by decide, h1, by decide, by decide, by decide,
    by norm_num [Dyadic.val], ?_⟩
  rw [h1]
  norm_num [Dyadic.val]

/-- C11, amended: in single-precision arithmetic (sums and products rounded to
nearest, ties to even, 24-bit significand), if the hash primitives return
values in `[0, 1)` then for every seed every component of
`random_float_offset`, `random_float2_offset`, `random_float3_offset` and
`random_float4_offset` lies in the closed range `[100, 200]`; and equal seeds
give equal offsets. -/
theorem offsets_in_closed_range (h1 : Dyadic → Dyadic) (h2 : float2 Dyadic → Dyadic)
    (hh1 : ∀ x, 0 ≤ (h1 x).val ∧ (h1 x).val < 1)
    (hh2 : ∀ p, 0 ≤ (h2 p).val ∧ (h2 p).val < 1) (seed : Dyadic) :
    (∀ c ∈ [random_float_offset (roundedExternals h1 h2) seed,
        (random_float2_offset (roundedExternals h1 h2) seed).x,
        (random_float2_offset (roundedExternals h1 h2) seed).y,
        (random_float3_offset (roundedExternals h1 h2) seed).x,
        (random_float3_offset (roundedExternals h1 h2) seed).y,
        (random_float3_offset (roundedExternals h1 h2) seed).z,
        (random_float4_offset (roundedExternals h1 h2) seed).x,
        (random_float4_offset (roundedExternals h1 h2) seed).y,
        (random_float4_offset (roundedExternals h1 h2) seed).z,
        (random_float4_offset (roundedExternals h1 h2) seed).w],
      100 ≤ Dyadic.val c ∧ Dyadic.val c ≤ 200) ∧
    (∀ seed1, seed1 = seed →
      random_float_offset (roundedExternals h1 h2) seed1
        = random_float_offset (roundedExternals h1 h2) seed ∧
      random_float2_offset (roundedExternals h1 h2) seed1
        = random_float2_offset (roundedExternals h1 h2) seed ∧
      random_float3_offset (roundedExternals h1 h2) seed1
        = random_float3_offset (roundedExternals h1 h2) seed ∧
      random_float4_offset (roundedExternals h1 h2) seed1
        = random_float4_offset (roundedExternals h1 h2) seed) := by
  refine ⟨fun c hc => ?_, fun seed1 hs => by subst hs; exact ⟨rfl, rfl, rfl, rfl⟩⟩
  simp only [List.mem_cons, List.mem_singleton, List.not_mem_nil, or_false] at hc
  rcases hc with rfl | rfl | rfl | rfl | rfl | rfl | rfl | rfl | rfl | rfl
  · exact rounded_component_bounds h1 h2 _ (hh1 _).2
  all_goals exact rounded_component_bounds h1 h2 _ (hh2 _).2

/-- Witness of C11 amended: with both hash primitives returning
`16777215 * 2^-24`, the 1D offset and the last component of the 4D offset lie
in `[100, 200]` (they are 200). -/
theorem offsets_in_closed_range_witness :
    (0 ≤ Dyadic.val ⟨16777215, -24⟩ ∧ Dyadic.val ⟨16777215, -24⟩ < 1) ∧
    (100 ≤ Dyadic.val (random_float_offset
        (roundedExternals (fun _ => ⟨16777215, -24⟩) (fun _ => ⟨16777215, -24⟩)) ⟨0, 0⟩) ∧
      Dyadic.val (random_float_offset
        (roundedExternals (fun _ => ⟨16777215, -24⟩) (fun _ => ⟨16777215, -24⟩)) ⟨0, 0⟩)
        ≤ 200) ∧
    (100 ≤ Dyadic.val (random_float4_offset
        (roundedExternals (fun _ => ⟨16777215, -24⟩) (fun _ => ⟨16777215, -24⟩)) ⟨0, 0⟩).w ∧
      Dyadic.val (random_float4_offset
        (roundedExternals (fun _ => ⟨16777215, -24⟩) (fun _ => ⟨16777215, -24⟩)) ⟨0, 0⟩).w
        ≤ 200) := by
  have hin : 0 ≤ Dyadic.val ⟨16777215, -24⟩ ∧ Dyadic.val ⟨16777215, -24⟩ < 1 := by
    norm_num [Dyadic.val]
  have h := (offsets_in_closed_range (fun _ => ⟨16777215, -24⟩) (fun _ => ⟨16777215, -24⟩)
    (fun _ => hin) (fun _ => hin) ⟨0, 0⟩).1
  exact ⟨hin,
    h (random_float_offset
        (roundedExternals (fun _ => ⟨16777215, -24⟩) (fun _ => ⟨16777215, -24⟩)) ⟨0, 0⟩)
      (List.mem_cons_self _ _),
    h (random_float4_offset
        (roundedExternals (fun _ => ⟨16777215, -24⟩) (fun _ => ⟨16777215, -24⟩)) ⟨0, 0⟩).w
      (by simp only [List.mem_cons, List.mem_singleton, true_or, or_true])⟩

/-- The closed range for any correctly rounded arithmetic: if `val` maps the
floats to rationals, `rnd` is a monotone rounding that keeps 0, 100 and 200,
sums and products are the rounded exact results, and the hash primitives return
values in `[0, 1)`, then every offset component lies in `[100, 200]`. -/
theorem monotone_rounding_keeps_offsets_in_range (E : Externals F) (val : F → ℚ)
    (rnd : ℚ → ℚ)
    (hadd : ∀ a b, val (E.add a b) = rnd (val a + val b))
    (hmul : ∀ a b, val (E.mul a b) = rnd (val a * val b))
    (h100 : val (E.ofNat 100) = 100)
    (hmono : ∀ x y, x ≤ y → rnd x ≤ rnd y)
    (hr0 : rnd 0 = 0) (hr100 : rnd 100 = 100) (hr200 : rnd 200 = 200)
    (hh1 : ∀ x, 0 ≤ val (E.hash_float_to_float x) ∧ val (E.hash_float_to_float x) < 1)
    (hh2 : ∀ p, 0 ≤ val (E.hash_float2_to_float p) ∧ val (E.hash_float2_to_float p) < 1)
    (seed : F) :
    ∀ c ∈ [random_float_offset E seed,
        (random_float2_offset E seed).x, (random_float2_offset E seed).y,
        (random_float3_offset E seed).x, (random_float3_offset E seed).y,
        (random_float3_offset E seed).z,
        (random_float4_offset E seed).x, (random_float4_offset E seed).y,
        (random_float4_offset E seed).z, (random_float4_offset E seed).w],
      100 ≤ val c ∧ val c ≤ 200 := by
  have key : ∀ h : F, 0 ≤ val h ∧ val h < 1 →
      100 ≤ val (E.add (E.ofNat 100) (E.mul h (E.ofNat 100))) ∧
      val (E.add (E.ofNat 100) (E.mul h (E.ofNat 100))) ≤ 200 := by
    intro h hh
    have hlo : rnd 0 ≤ rnd (val h * 100) := hmono _ _ (by nlinarith [hh.1])
    have hhi : rnd (val h * 100) ≤ rnd 100 := hmono _ _ (by nlinarith [hh.2])
    rw [hr0] at hlo
    rw [hr100] at hhi
    have hsum_lo : rnd 100 ≤ rnd (100 + rnd (val h * 100)) := hmono _ _ (by linarith)
    have hsum_hi : rnd (100 + rnd (val h * 100)) ≤ rnd 200 := hmono _ _ (by linarith)
    rw [hr100] at hsum_lo
    rw [hr200] at hsum_hi
    rw [hadd, hmul, h100]
    exact ⟨hsum_lo, hsum_hi⟩
  intro c hc
  simp only [List.mem_cons, List.mem_singleton, List.not_mem_nil, or_false] at hc
  rcases hc with rfl | rfl | rfl | rfl | rfl | rfl | rfl | rfl | rfl | rfl
  · exact key _ (hh1 _)
  all_goals exact key _ (hh2 _)

/-- The previous theorem applies to exact rational arithmetic: with both hash
primitives returning `1/2` the 1D offset lies in `[100, 200]`. -/
theorem exact_arithmetic_offsets_in_range :
    100 ≤ random_float_offset (exactExternals (1 / 2)) 0 ∧
    random_float_offset (exactExternals (1 / 2)) 0 ≤ 200 :=
  monotone_rounding_keeps_offsets_in_range (exactExternals (1 / 2)) id id
    (fun _ _ => rfl) (fun _ _ => rfl) (by simp [exactExternals]) (fun _ _ hxy => hxy)
    rfl rfl rfl (fun _ => by norm_num [exactExternals])
    (fun _ => by norm_num [exactExternals]) 0
    (random_float_offset (exactExternals (1 / 2)) 0) (List.mem_cons_self _ _)

end NoiseTex
